import Mathlib

set_option maxHeartbeats 1000000
set_option maxRecDepth 16000

/-!
Shallow embedding of the match-clock and sanction rule engine of
`teste.py` (handball statistics app).  The ambient mutable session
dictionary `game_state` becomes the explicit record `GameState`; every
mutating handler of the source becomes a pure function from state to
state (paired, where the source emits a user-visible warning on a
rejected action, with an `Option Warn`).  Wall-clock reads (`now_ts`)
become an explicit rational parameter `now`; Python floats are modelled
as rationals.
-/

namespace Andebol

/-- A roster entity (athlete or team official), mirroring the per-entity
dictionaries built in `init_state`.  Officials are created without the
`in_field`, `time_played`, `tech_faults` and `conquistas` keys; every
read of those keys in the source uses `.get` with defaults `False`,
`0.0`, `0` and `[]`, so one record type with those values for officials
models both variants. -/
structure Entity where
  num : String
  nome : String
  pos : String
  is_official : Bool
  in_field : Bool
  time_played : ℚ
  yellow : ℕ
  two_total : ℕ
  two_active : ℚ
  red : ℕ
  disq : Bool
  tech_faults : ℕ
  conquistas : List (ℤ × String)
  deriving DecidableEq

/-- A goal-ledger entry, mirroring the dict appended by `register_goal`. -/
structure GoalE where
  player_id : String
  tipo : String
  zona : Option ℕ
  half : ℕ
  sofrido : Bool
  t : ℤ
  deriving DecidableEq

/-- A shot-ledger entry, mirroring the dict appended by `register_shot`. -/
structure ShotE where
  player_id : String
  tipo : String
  resultado : String
  zona : Option ℕ
  half : ℕ
  sofrido : Bool
  t : ℤ
  deriving DecidableEq

/-- The mutable subset of the session state listed in `SNAP_KEYS`: this is
exactly what `push_snapshot` deep-copies and `undo_last` restores.  The
Python dicts `score_for` and `score_against` (keys "1"/"2") become two
counters each; the player dict becomes an association list keyed by the
player id; `on_field_set` becomes a duplicate-free list. -/
structure SnapState where
  players : List (String × Entity)
  on_field_set : List String
  team_penalties : List ℚ
  team_yellow_total : ℕ
  officials_yellow_total : ℕ
  officials_two_total : ℕ
  forced_bench_s : List (String × ℚ)
  score_for1 : ℕ
  score_for2 : ℕ
  score_against1 : ℕ
  score_against2 : ℕ
  goals : List GoalE
  shots : List ShotE
  events : List (ℤ × String)
  running : Bool
  start_time : Option ℚ
  elapsed : ℚ
  half : ℕ
  last_minute_alert : Bool
  deriving DecidableEq

/-- The full engine state: the snapshot-covered subset plus the fields of
`game_state` outside `SNAP_KEYS` that the modelled operations touch
(`half_len`, `passive`, and the single retained undo snapshot, stored
together with its `_label`). -/
structure GameState where
  snap : SnapState
  half_len : ℚ
  passive : Bool
  last_snapshot : Option (SnapState × String)
  deriving DecidableEq

/-- The user-visible warnings the modelled handlers can emit
(`st.warning` calls on rejected actions). -/
inductive Warn where
  | alreadyDisqualified
  | collectiveLimitReached
  | perEntityLimitReached
  | capacityExceeded
  | blockedBench
  | ineligibleStart
  | nothingToUndo
  deriving DecidableEq

/-- Association-list lookup (Python `dict[k]` / `dict.get(k)`). -/
def alookup {α : Type} : List (String × α) → String → Option α
  | [], _ => none
  | pp :: rest, k => if pp.1 = k then some pp.2 else alookup rest k

/-- Association-list pointwise update of the entries with key `k`
(Python in-place mutation of `dict[k]`). -/
def aupdate {α : Type} (f : α → α) (k : String) : List (String × α) → List (String × α)
  | [] => []
  | pp :: rest => if pp.1 = k then (pp.1, f pp.2) :: aupdate f k rest
                  else pp :: aupdate f k rest

/-- Association-list upsert (Python `dict[k] = v`): overwrite the entry if
the key is present, append it otherwise. -/
def aset {α : Type} (k : String) (v : α) : List (String × α) → List (String × α)
  | [] => [(k, v)]
  | pp :: rest => if pp.1 = k then (k, v) :: rest else pp :: aset k v rest

/-- Python `set.add`. -/
def setAdd (k : String) (s : List String) : List String :=
  if k ∈ s then s else s ++ [k]

/-- Python `set.discard`. -/
def setDiscard (k : String) (s : List String) : List String :=
  s.filter (fun x => x ≠ k)

/-- Python `int()` truncation toward zero on a rational. -/
def truncInt (q : ℚ) : ℤ := q.num / (q.den : ℤ)

/-- `gs["forced_bench_s"].get(pid, 0.0)`. -/
def bench_of (s : SnapState) (pid : String) : ℚ :=
  (alookup s.forced_bench_s pid).getD 0

/-- `current_allowed_on_field`: dynamic field capacity,
`max(3, 7 - (active player suspensions + active team penalties))`. -/
def current_allowed_on_field (gs : GameState) : ℤ :=
  let per_player_active :=
    (gs.snap.players.filter
      (fun pp => decide (pp.2.is_official = false ∧ 0 < pp.2.two_active))).length
  let team_active :=
    (gs.snap.team_penalties.filter (fun t => decide (0 < t))).length
  max 3 (7 - ((per_player_active : ℤ) + (team_active : ℤ)))

/-- Transcription of the spec sentence defining `allowedOnField`:
`max(3, 7 - (activePlayerSuspensions + activeTeamPenalties))`, where
`activePlayerSuspensions` counts non-official entities with a positive
active two-minute countdown and `activeTeamPenalties` counts positive
TeamPenaltyQueue entries.  Kept separate from the source transcription
`current_allowed_on_field` so the two can be compared. -/
def spec_allowedOnField (gs : GameState) : ℤ :=
  let activePlayerSuspensions :=
    (gs.snap.players.filter
      (fun pp => decide (pp.2.is_official = false ∧ 0 < pp.2.two_active))).length
  let activeTeamPenalties :=
    (gs.snap.team_penalties.filter (fun t => decide (0 < t))).length
  max 3 (7 - ((activePlayerSuspensions : ℤ) + (activeTeamPenalties : ℤ)))

/-- Per-entry effect of `flush_time` on a player entry: accumulate
`time_played` for entries in the on-field set that are not officials,
and count a positive active two-minute suspension down by `delta`,
clamped at zero. -/
def flushEntity (onField : List String) (delta : ℚ) (pp : String × Entity) :
    String × Entity :=
  let p := pp.2
  let p1 := if pp.1 ∈ onField ∧ p.is_official = false then
              { p with time_played := p.time_played + delta } else p
  let p2 := if 0 < p1.two_active then
              { p1 with two_active := max 0 (p1.two_active - delta) } else p1
  (pp.1, p2)

/-- `flush_time`: re-synchronize the clock at instant `now`.  No-op when
paused; on the first tick after `start` just records `start_time`; else
adds the wall-clock delta to `elapsed`, decrements every dependent
countdown, fires the last-minute alert flag, and on reaching the half
length clamps `elapsed`, stops the clock and, in the first half,
advances to the second half with `elapsed` reset to zero. -/
def flush_time (now : ℚ) (gs : GameState) : GameState :=
  if gs.snap.running = false then gs
  else
    match gs.snap.start_time with
    | none => { gs with snap := { gs.snap with start_time := some now } }
    | some t0 =>
      let delta := max 0 (now - t0)
      if delta = 0 then gs
      else
        let elapsed1 := gs.snap.elapsed + delta
        let players1 := gs.snap.players.map (flushEntity gs.snap.on_field_set delta)
        let pens1 := gs.snap.team_penalties.map
          (fun t => if 0 < t then max 0 (t - delta) else t)
        let bench1 := gs.snap.forced_bench_s.map
          (fun pp => (pp.1, max 0 (pp.2 - delta)))
        let rem : ℤ := max 0 (truncInt (gs.half_len - elapsed1))
        let alert1 := if rem ≤ 60 ∧ gs.snap.last_minute_alert = false then true
                      else gs.snap.last_minute_alert
        if gs.half_len ≤ elapsed1 then
          if gs.snap.half = 1 then
            { gs with snap := { gs.snap with
                players := players1, team_penalties := pens1,
                forced_bench_s := bench1,
                elapsed := 0, running := false, half := 2,
                start_time := none, last_minute_alert := false } }
          else
            { gs with snap := { gs.snap with
                players := players1, team_penalties := pens1,
                forced_bench_s := bench1,
                elapsed := gs.half_len, running := false,
                start_time := some now, last_minute_alert := alert1 } }
        else
          { gs with snap := { gs.snap with
              players := players1, team_penalties := pens1,
              forced_bench_s := bench1,
              elapsed := elapsed1, start_time := some now,
              last_minute_alert := alert1 } }

/-- `start_play`: refuse in the first half unless exactly 7 players are
selected; otherwise start the clock at `now`. -/
def start_play (now : ℚ) (gs : GameState) : GameState × Option Warn :=
  if gs.snap.half = 1 ∧ gs.snap.on_field_set.length ≠ 7 then
    (gs, some Warn.ineligibleStart)
  else
    ({ gs with snap := { gs.snap with running := true, start_time := some now } },
     none)

/-- `pause_play`: flush if running, then stop the clock. -/
def pause_play (now : ℚ) (gs : GameState) : GameState :=
  let gs1 := if gs.snap.running then flush_time now gs else gs
  { gs1 with snap := { gs1.snap with running := false } }

/-- `push_snapshot`: retain a deep copy of the `SNAP_KEYS` subset,
labelled, as the single undo slot. -/
def push_snapshot (label : String) (gs : GameState) : GameState :=
  { gs with last_snapshot := some (gs.snap, label) }

/-- `undo_last`: warn when no snapshot is retained; otherwise restore
every `SNAP_KEYS` field from the snapshot and clear the slot. -/
def undo_last (gs : GameState) : GameState × Option Warn :=
  match gs.last_snapshot with
  | none => (gs, some Warn.nothingToUndo)
  | some sl => ({ gs with snap := sl.1, last_snapshot := none }, none)

/-- Common fragment of `give_two_minutes` and `give_red`: the sanctioned
entity leaves the field set and drops its `in_field` flag. -/
def removeFromField (pid : String) (gs : GameState) : GameState :=
  { gs with snap := { gs.snap with
      on_field_set := setDiscard pid gs.snap.on_field_set,
      players := aupdate (fun q => { q with in_field := false }) pid
        gs.snap.players } }

/-- `give_yellow`: rejected when disqualified; officials share one
collective yellow, athletes have a team total of 3 and one each. -/
def give_yellow (pid : String) (gs : GameState) : GameState × Option Warn :=
  match alookup gs.snap.players pid with
  | none => (gs, none)
  | some p =>
    if p.disq then (gs, some Warn.alreadyDisqualified)
    else if p.is_official then
      if 1 ≤ gs.snap.officials_yellow_total then (gs, some Warn.collectiveLimitReached)
      else if 1 ≤ p.yellow then (gs, some Warn.perEntityLimitReached)
      else
        let gs1 := push_snapshot ("Amarelo Oficial " ++ p.nome) gs
        ({ gs1 with snap := { gs1.snap with
            players := aupdate (fun q => { q with yellow := 1 }) pid gs1.snap.players,
            officials_yellow_total := gs1.snap.officials_yellow_total + 1 } },
         none)
    else
      if 3 ≤ gs.snap.team_yellow_total then (gs, some Warn.collectiveLimitReached)
      else if 1 ≤ p.yellow then (gs, some Warn.perEntityLimitReached)
      else
        let gs1 := push_snapshot ("Amarelo " ++ p.nome) gs
        ({ gs1 with snap := { gs1.snap with
            players := aupdate (fun q => { q with yellow := 1 }) pid gs1.snap.players,
            team_yellow_total := gs1.snap.team_yellow_total + 1 } },
         none)

/-- `give_two_minutes`: rejected when disqualified; pushes the snapshot,
removes an on-field entity from the field (flushing first); officials
share one collective two-minute allowance (the limit check happens after
the snapshot push); an athlete accumulates `two_total`, a third
occurrence disqualifies (leaving the residual `two_active` countdown as
it is) and adds a 120-second team penalty, otherwise `two_active` grows
by 120.  The forced-substitution dialog the source then opens only sets
presentation-layer flags, so it does not appear in the state. -/
def give_two_minutes (now : ℚ) (pid : String) (gs : GameState) :
    GameState × Option Warn :=
  match alookup gs.snap.players pid with
  | none => (gs, none)
  | some p0 =>
    if p0.disq then (gs, some Warn.alreadyDisqualified)
    else
      let gs1 := push_snapshot ("2\x27 " ++ p0.nome) gs
      let gs2 := if pid ∈ gs1.snap.on_field_set then
                   removeFromField pid (flush_time now gs1)
                 else gs1
      match alookup gs2.snap.players pid with
      | none => (gs2, none)
      | some p =>
        if p.is_official then
          if 1 ≤ gs2.snap.officials_two_total then
            (gs2, some Warn.collectiveLimitReached)
          else
            ({ gs2 with snap := { gs2.snap with
                players := aupdate (fun q => { q with two_total := q.two_total + 1 })
                  pid gs2.snap.players,
                officials_two_total := gs2.snap.officials_two_total + 1,
                team_penalties := gs2.snap.team_penalties ++ [120] } },
             none)
        else
          if 3 ≤ p.two_total + 1 then
            ({ gs2 with snap := { gs2.snap with
                players := aupdate
                  (fun q => { q with two_total := q.two_total + 1, disq := true })
                  pid gs2.snap.players,
                team_penalties := gs2.snap.team_penalties ++ [120] } },
             none)
          else
            ({ gs2 with snap := { gs2.snap with
                players := aupdate
                  (fun q => { q with two_total := q.two_total + 1,
                                     two_active := q.two_active + 120 })
                  pid gs2.snap.players } },
             none)

/-- `give_red`: rejected when disqualified; otherwise snapshot, leave the
field, disqualify, count the red and add a 120-second team penalty. -/
def give_red (now : ℚ) (pid : String) (gs : GameState) : GameState × Option Warn :=
  match alookup gs.snap.players pid with
  | none => (gs, none)
  | some p0 =>
    if p0.disq then (gs, some Warn.alreadyDisqualified)
    else
      let gs1 := push_snapshot ("Vermelho " ++ p0.nome) gs
      let gs2 := if pid ∈ gs1.snap.on_field_set then
                   removeFromField pid (flush_time now gs1)
                 else gs1
      ({ gs2 with snap := { gs2.snap with
          players := aupdate (fun q => { q with disq := true, red := q.red + 1 })
            pid gs2.snap.players,
          team_penalties := gs2.snap.team_penalties ++ [120] } },
       none)

/-- `register_goal`: rejected when the entity is disqualified; otherwise
snapshot, append the ledger entry and bump the matching per-half score
counter (`score_for` for own goals, `score_against` for conceded ones;
the Python dicts are keyed by `str(half)` with `half ∈ {1,2}`). -/
def register_goal (pid typ : String) (zona : Option ℕ) (sofrido : Bool)
    (gs : GameState) : GameState × Option Warn :=
  match alookup gs.snap.players pid with
  | none => (gs, none)
  | some p =>
    if p.disq then (gs, some Warn.alreadyDisqualified)
    else
      let gs1 := push_snapshot ("Golo " ++ p.nome ++ " (" ++ typ ++ ")") gs
      let e : GoalE := { player_id := pid, tipo := typ, zona := zona,
                         half := gs1.snap.half, sofrido := sofrido,
                         t := truncInt gs1.snap.elapsed }
      let s2 : SnapState := { gs1.snap with goals := gs1.snap.goals ++ [e] }
      let s3 : SnapState :=
        if sofrido then
          if s2.half = 1 then { s2 with score_against1 := s2.score_against1 + 1 }
          else { s2 with score_against2 := s2.score_against2 + 1 }
        else
          if s2.half = 1 then { s2 with score_for1 := s2.score_for1 + 1 }
          else { s2 with score_for2 := s2.score_for2 + 1 }
      ({ gs1 with snap := s3, passive := false }, none)

/-- `register_shot`: rejected when disqualified; otherwise snapshot and
append the shot ledger entry; no score change. -/
def register_shot (pid outcome typ : String) (zona : Option ℕ) (sofrido : Bool)
    (gs : GameState) : GameState × Option Warn :=
  match alookup gs.snap.players pid with
  | none => (gs, none)
  | some p =>
    if p.disq then (gs, some Warn.alreadyDisqualified)
    else
      let gs1 := push_snapshot
        ("Remate " ++ outcome ++ " " ++ p.nome ++ " (" ++ typ ++ ")") gs
      let e : ShotE := { player_id := pid, tipo := typ, resultado := outcome,
                         zona := zona, half := gs1.snap.half, sofrido := sofrido,
                         t := truncInt gs1.snap.elapsed }
      ({ gs1 with snap := { gs1.snap with shots := gs1.snap.shots ++ [e] },
                  passive := false }, none)

/-- `add_conquista`: append an achievement to the entity and a textual
event to the ledger; note the source has no snapshot push and no
disqualification guard here. -/
def add_conquista (pid label : String) (gs : GameState) : GameState :=
  match alookup gs.snap.players pid with
  | none => gs
  | some p =>
    { gs with snap := { gs.snap with
        players := aupdate
          (fun q => { q with conquistas :=
            q.conquistas ++ [(truncInt gs.snap.elapsed, label)] }) pid
          gs.snap.players,
        events := gs.snap.events ++
          [(truncInt gs.snap.elapsed, p.nome ++ " conquistou: " ++ label)] },
              passive := false }

/-- The technical-fault button handler of `render_player_row` (rendered
only for non-officials, with no disqualification guard): snapshot, then
increment `tech_faults`. -/
def tech_fault (pid : String) (gs : GameState) : GameState :=
  match alookup gs.snap.players pid with
  | none => gs
  | some p =>
    if p.is_official then gs
    else
      let gs1 := push_snapshot ("Falha Técnica " ++ p.nome) gs
      { gs1 with snap := { gs1.snap with
          players := aupdate (fun q => { q with tech_faults := q.tech_faults + 1 })
            pid gs1.snap.players } }

/-- The name-button (field entry/exit) handler of `render_player_row`.
The button is disabled for officials, disqualified entities, active
two-minute suspensions and positive forced-bench blocks, so a click is
only possible outside those conditions; the handler then flushes time,
re-checks the (now decremented) forced bench, toggles field membership
subject to the dynamic capacity, and resets `start_time` to now.  Note:
no snapshot is pushed on this path. -/
def toggle_field (now : ℚ) (pid : String) (gs : GameState) :
    GameState × Option Warn :=
  match alookup gs.snap.players pid with
  | none => (gs, none)
  | some p =>
    if p.is_official = true ∨ p.disq = true ∨ 0 < p.two_active ∨
        0 < bench_of gs.snap pid then
      (gs, none)
    else
      let gs1 := flush_time now gs
      if 0 < bench_of gs1.snap pid then
        ({ gs1 with snap := { gs1.snap with start_time := some now } },
         some Warn.blockedBench)
      else
        match alookup gs1.snap.players pid with
        | none => ({ gs1 with snap := { gs1.snap with start_time := some now } }, none)
        | some p1 =>
          if p1.in_field then
            ({ gs1 with snap := { gs1.snap with
                players := aupdate (fun q => { q with in_field := false }) pid
                  gs1.snap.players,
                on_field_set := setDiscard pid gs1.snap.on_field_set,
                start_time := some now } }, none)
          else
            if current_allowed_on_field gs1 ≤ (gs1.snap.on_field_set.length : ℤ) then
              ({ gs1 with snap := { gs1.snap with start_time := some now } },
               some Warn.capacityExceeded)
            else
              ({ gs1 with snap := { gs1.snap with
                  players := aupdate (fun q => { q with in_field := true }) pid
                    gs1.snap.players,
                  on_field_set := setAdd pid gs1.snap.on_field_set,
                  start_time := some now } }, none)

/-- The forced-substitution resolution handler of `force_out_dialog`: the
dialog lists only on-field non-officials, so the handler runs only for
such a pid; it snapshots, flushes, withdraws the chosen athlete and adds
`duration` seconds to that athlete's forced-bench block. -/
def force_out_choice (now : ℚ) (pid : String) (duration : ℚ) (reason : String)
    (gs : GameState) : GameState :=
  match alookup gs.snap.players pid with
  | none => gs
  | some p =>
    if pid ∈ gs.snap.on_field_set ∧ p.is_official = false then
      let gs1 := push_snapshot ("Retirar " ++ p.nome ++ " (" ++ reason ++ ")") gs
      let gs2 := flush_time now gs1
      { gs2 with snap := { gs2.snap with
          on_field_set := setDiscard pid gs2.snap.on_field_set,
          players := aupdate (fun q => { q with in_field := false }) pid
            gs2.snap.players,
          forced_bench_s := aset pid (bench_of gs2.snap pid + duration)
            gs2.snap.forced_bench_s } }
    else gs

/-- One user- or tick-driven mutating operation of the engine. -/
inductive Action where
  | flush (now : ℚ)
  | start (now : ℚ)
  | pause (now : ℚ)
  | yellow (pid : String)
  | twoMin (now : ℚ) (pid : String)
  | redCard (now : ℚ) (pid : String)
  | goal (pid typ : String) (zona : Option ℕ) (sofrido : Bool)
  | shot (pid outcome typ : String) (zona : Option ℕ) (sofrido : Bool)
  | conquista (pid label : String)
  | tech (pid : String)
  | toggle (now : ℚ) (pid : String)
  | forceOut (now : ℚ) (pid : String) (duration : ℚ) (reason : String)
  | undo

/-- State transition of a single operation (warnings dropped). -/
def applyAction : Action → GameState → GameState
  | Action.flush now, gs => flush_time now gs
  | Action.start now, gs => (start_play now gs).1
  | Action.pause now, gs => pause_play now gs
  | Action.yellow pid, gs => (give_yellow pid gs).1
  | Action.twoMin now pid, gs => (give_two_minutes now pid gs).1
  | Action.redCard now pid, gs => (give_red now pid gs).1
  | Action.goal pid typ zona sofrido, gs => (register_goal pid typ zona sofrido gs).1
  | Action.shot pid outcome typ zona sofrido, gs =>
      (register_shot pid outcome typ zona sofrido gs).1
  | Action.conquista pid label, gs => add_conquista pid label gs
  | Action.tech pid, gs => tech_fault pid gs
  | Action.toggle now pid, gs => (toggle_field now pid gs).1
  | Action.forceOut now pid duration reason, gs =>
      force_out_choice now pid duration reason gs
  | Action.undo, gs => (undo_last gs).1

/-- State after a sequence of operations. -/
def applyActions (acts : List Action) (gs : GameState) : GameState :=
  acts.foldl (fun s a => applyAction a s) gs

/-- An athlete record as `init_state` builds it. -/
def initAthlete (num nome pos : String) : Entity :=
  { num := num, nome := nome, pos := pos, is_official := false,
    in_field := false, time_played := 0, yellow := 0, two_total := 0,
    two_active := 0, red := 0, disq := false, tech_faults := 0, conquistas := [] }

/-- An official record as `init_state` builds it (missing dict keys
modelled by their `.get` defaults). -/
def initOfficial (nome pos : String) : Entity :=
  { num := "0", nome := nome, pos := pos, is_official := true,
    in_field := false, time_played := 0, yellow := 0, two_total := 0,
    two_active := 0, red := 0, disq := false, tech_faults := 0, conquistas := [] }

/-- `init_state`, parameterized by the already-normalized roster (the
Excel parsing is outside the engine): athletes as (id, number, name,
position), officials as (id, name, role). -/
def init_state (athletes : List (String × String × String × String))
    (officials : List (String × String × String)) : GameState :=
  { snap := {
      players := athletes.map (fun a => (a.1, initAthlete a.2.1 a.2.2.1 a.2.2.2)) ++
                 officials.map (fun o => (o.1, initOfficial o.2.1 o.2.2)),
      on_field_set := [],
      team_penalties := [],
      team_yellow_total := 0,
      officials_yellow_total := 0,
      officials_two_total := 0,
      forced_bench_s := [],
      score_for1 := 0, score_for2 := 0, score_against1 := 0, score_against2 := 0,
      goals := [], shots := [], events := [],
      running := false, start_time := none, elapsed := 0, half := 1,
      last_minute_alert := false },
    half_len := 30 * 60,
    passive := false,
    last_snapshot := none }

/-- The actions whose source handlers push an undo snapshot before
mutating.  The clock flush, `start_play`, `pause_play`, the field
entry/exit toggle, achievement registration and `undo_last` itself push
none. -/
def snapshotPushing : Action → Bool
  | Action.yellow _ => true
  | Action.twoMin _ _ => true
  | Action.redCard _ _ => true
  | Action.goal _ _ _ _ => true
  | Action.shot _ _ _ _ _ => true
  | Action.tech _ => true
  | Action.forceOut _ _ _ _ => true
  | _ => false

/-! ### Structural invariants of the engine state -/

/-- The collective sanction counters stay within their caps. -/
def CapsOK (s : SnapState) : Prop :=
  s.team_yellow_total ≤ 3 ∧ s.officials_yellow_total ≤ 1 ∧
  s.officials_two_total ≤ 1

/-- The current half is 1 or 2. -/
def HalfOK (s : SnapState) : Prop := s.half = 1 ∨ s.half = 2

/-- Every goal-ledger entry was recorded during half 1 or half 2. -/
def GoalsHalfOK (s : SnapState) : Prop := ∀ e ∈ s.goals, e.half = 1 ∨ e.half = 2

/-- Number of goal-ledger entries of half `h` with conceded flag `c`. -/
def goalCount (s : SnapState) (h : ℕ) (c : Bool) : ℕ :=
  (s.goals.filter (fun e => decide (e.half = h ∧ e.sofrido = c))).length

/-- The stored per-half scores agree with the goal ledger. -/
def ScoreOK (s : SnapState) : Prop :=
  s.score_for1 = goalCount s 1 false ∧ s.score_for2 = goalCount s 2 false ∧
  s.score_against1 = goalCount s 1 true ∧ s.score_against2 = goalCount s 2 true

/-- Each entity's `in_field` flag agrees with membership in the on-field
set. -/
def CouplingOK (s : SnapState) : Prop :=
  ∀ pp ∈ s.players, (pp.2.in_field = true ↔ pp.1 ∈ s.on_field_set)

/-- No entity is on the field while disqualified, while serving an
active two-minute suspension, or while blocked on the forced bench. -/
def FieldOK (s : SnapState) : Prop :=
  ∀ pp ∈ s.players, pp.2.in_field = true →
    pp.2.disq = false ∧ ¬ 0 < pp.2.two_active ∧ ¬ 0 < bench_of s pp.1

/-- Player ids are unique (they key a Python dict). -/
def KeysOK (s : SnapState) : Prop := (s.players.map Prod.fst).Nodup

/-- All structural invariants of the snapshot-covered state together. -/
def SnapInv (s : SnapState) : Prop :=
  CapsOK s ∧ HalfOK s ∧ GoalsHalfOK s ∧ ScoreOK s ∧ CouplingOK s ∧
  FieldOK s ∧ KeysOK s

/-- Invariant of the full engine state: the live state and any retained
undo snapshot satisfy the structural invariants. -/
def Inv (gs : GameState) : Prop :=
  SnapInv gs.snap ∧ ∀ sl, gs.last_snapshot = some sl → SnapInv sl.1

/-! ### Concrete states used by witnesses and counterexamples -/

/-- A small roster: two athletes and one official. -/
def baseGS : GameState :=
  init_state [("a", "7", "Ana", "PE"), ("b", "9", "Bia", "GR")] [("o", "Olga", "A")]

/-- Scenario E input: first half, running, `elapsed = 1750`,
`start_time = 0`, so flushing at instant 55 yields a 55-second delta. -/
def exC1 : GameState :=
  { baseGS with snap := { baseGS.snap with
      running := true, start_time := some 0, elapsed := 1750 } }

/-- Athlete `a` benched with two prior two-minute suspensions and a
residual 30-second active countdown. -/
def exC3 : GameState :=
  { baseGS with snap := { baseGS.snap with
      players := aupdate (fun q => { q with two_total := 2, two_active := 30 })
        "a" baseGS.snap.players } }

/-- The officials' collective two-minute allowance already used. -/
def exC4 : GameState :=
  { baseGS with snap := { baseGS.snap with officials_two_total := 1 } }

/-- Team yellow cap and both official collective caps exhausted. -/
def exC6 : GameState :=
  { baseGS with snap := { baseGS.snap with
      team_yellow_total := 3, officials_yellow_total := 1,
      officials_two_total := 1 } }

/-- Athlete `a` disqualified. -/
def exC8 : GameState :=
  { baseGS with snap := { baseGS.snap with
      players := aupdate (fun q => { q with disq := true }) "a"
        baseGS.snap.players } }

/-- A running clock with one 120-second team penalty pending. -/
def exC9 : GameState :=
  { baseGS with snap := { baseGS.snap with
      running := true, start_time := some 0, team_penalties := [120] } }

/-! ### Basic lemmas about the association-list primitives -/

theorem alookup_aupdate_self {α : Type} (f : α → α) (k : String)
    (l : List (String × α)) :
    alookup (aupdate f k l) k = (alookup l k).map f := by
  induction l with
  | nil => rfl
  | cons pp rest ih =>
    by_cases h : pp.1 = k
    · simp [aupdate, alookup, h]
    · simp [aupdate, alookup, h, ih]

theorem alookup_aupdate_ne {α : Type} (f : α → α) (k k' : String)
    (l : List (String × α)) (h : k ≠ k') :
    alookup (aupdate f k l) k' = alookup l k' := by
  induction l with
  | nil => rfl
  | cons pp rest ih =>
    have h2 : k' ≠ k := Ne.symm h
    by_cases hk : pp.1 = k
    · simp [aupdate, alookup, hk, h, ih]
    · by_cases hk' : pp.1 = k'
      · simp [aupdate, alookup, hk, hk', h2]
      · simp [aupdate, alookup, hk, hk', ih]

theorem mem_aupdate {α : Type} {f : α → α} {k : String}
    {l : List (String × α)} {pp : String × α} (h : pp ∈ aupdate f k l) :
    ∃ qq ∈ l, pp.1 = qq.1 ∧
      ((qq.1 ≠ k ∧ pp.2 = qq.2) ∨ (qq.1 = k ∧ pp.2 = f qq.2)) := by
  induction l with
  | nil => simp [aupdate] at h
  | cons qq rest ih =>
    by_cases hk : qq.1 = k
    · rw [aupdate, if_pos hk] at h
      rcases List.mem_cons.mp h with h1 | h1
      · exact ⟨qq, List.mem_cons_self _ _, by rw [h1], Or.inr ⟨hk, by rw [h1]⟩⟩
      · rcases ih h1 with ⟨rr, hr, h2, h3⟩
        exact ⟨rr, List.mem_cons_of_mem _ hr, h2, h3⟩
    · rw [aupdate, if_neg hk] at h
      rcases List.mem_cons.mp h with h1 | h1
      · exact ⟨qq, List.mem_cons_self _ _, by rw [h1], Or.inl ⟨hk, by rw [h1]⟩⟩
      · rcases ih h1 with ⟨rr, hr, h2, h3⟩
        exact ⟨rr, List.mem_cons_of_mem _ hr, h2, h3⟩

theorem alookup_mem {α : Type} {l : List (String × α)} {k : String} {v : α}
    (h : alookup l k = some v) : (k, v) ∈ l := by
  induction l with
  | nil => simp [alookup] at h
  | cons pp rest ih =>
    by_cases hk : pp.1 = k
    · rw [alookup, if_pos hk] at h
      have hv : pp.2 = v := Option.some.inj h
      have hpp : pp = (k, v) := by
        rcases pp with ⟨a, b⟩
        simp only at hk hv
        rw [hk, hv]
      rw [hpp]
      exact List.mem_cons_self _ _
    · rw [alookup, if_neg hk] at h
      exact List.mem_cons_of_mem _ (ih h)

theorem alookup_keymap {α β : Type} (g : String × α → β) (l : List (String × α))
    (k : String) :
    alookup (l.map (fun pp => (pp.1, g pp))) k =
      (l.find? (fun pp => pp.1 = k)).map g := by
  induction l with
  | nil => rfl
  | cons pp rest ih =>
    by_cases hk : pp.1 = k
    · simp [alookup, List.find?, hk]
    · simp [alookup, List.find?, hk, ih]

theorem alookup_aset_self {α : Type} (k : String) (v : α) (l : List (String × α)) :
    alookup (aset k v l) k = some v := by
  induction l with
  | nil => simp [aset, alookup]
  | cons pp rest ih =>
    by_cases hk : pp.1 = k
    · simp [aset, alookup, hk]
    · simp [aset, alookup, hk, ih]

/-! ### Branch characterizations of flush_time -/

theorem flush_time_not_running (now : ℚ) (gs : GameState)
    (h : gs.snap.running = false) : flush_time now gs = gs := by
  unfold flush_time
  rw [if_pos h]

theorem flush_time_no_start (now : ℚ) (gs : GameState)
    (hr : gs.snap.running = true) (hs : gs.snap.start_time = none) :
    flush_time now gs = { gs with snap := { gs.snap with start_time := some now } } := by
  unfold flush_time
  rw [hr, hs]
  simp

theorem flush_time_zero_delta (now : ℚ) (gs : GameState) (t0 : ℚ)
    (hr : gs.snap.running = true) (hs : gs.snap.start_time = some t0)
    (hd : max 0 (now - t0) = 0) :
    flush_time now gs = gs := by
  unfold flush_time
  rw [hr, hs]
  simp [hd]

/-- Running flush with a positive delta that stays below the half length:
all countdowns tick, the clock advances and is re-anchored at `now`. -/
theorem flush_time_advance (now : ℚ) (gs : GameState) (t0 : ℚ)
    (hr : gs.snap.running = true) (hs : gs.snap.start_time = some t0)
    (hd : max 0 (now - t0) ≠ 0)
    (hlt : gs.snap.elapsed + max 0 (now - t0) < gs.half_len) :
    flush_time now gs = { gs with snap := { gs.snap with
      players := gs.snap.players.map
        (flushEntity gs.snap.on_field_set (max 0 (now - t0))),
      team_penalties := gs.snap.team_penalties.map
        (fun t => if 0 < t then max 0 (t - max 0 (now - t0)) else t),
      forced_bench_s := gs.snap.forced_bench_s.map
        (fun pp => (pp.1, max 0 (pp.2 - max 0 (now - t0)))),
      elapsed := gs.snap.elapsed + max 0 (now - t0),
      start_time := some now,
      last_minute_alert :=
        if max 0 (truncInt (gs.half_len - (gs.snap.elapsed + max 0 (now - t0)))) ≤ 60 ∧
            gs.snap.last_minute_alert = false then true
        else gs.snap.last_minute_alert } } := by
  unfold flush_time
  rw [hr, hs]
  simp only [Bool.true_eq_false, if_false]
  rw [if_neg hd, if_neg (not_le.mpr hlt)]

/-- Running flush with a positive delta reaching the first-half length:
countdowns tick, the half ends and the clock is reset for half two. -/
theorem flush_time_end_half1 (now : ℚ) (gs : GameState) (t0 : ℚ)
    (hr : gs.snap.running = true) (hs : gs.snap.start_time = some t0)
    (hd : max 0 (now - t0) ≠ 0)
    (hge : gs.half_len ≤ gs.snap.elapsed + max 0 (now - t0))
    (hh : gs.snap.half = 1) :
    flush_time now gs = { gs with snap := { gs.snap with
      players := gs.snap.players.map
        (flushEntity gs.snap.on_field_set (max 0 (now - t0))),
      team_penalties := gs.snap.team_penalties.map
        (fun t => if 0 < t then max 0 (t - max 0 (now - t0)) else t),
      forced_bench_s := gs.snap.forced_bench_s.map
        (fun pp => (pp.1, max 0 (pp.2 - max 0 (now - t0)))),
      elapsed := 0, running := false, half := 2,
      start_time := none, last_minute_alert := false } } := by
  unfold flush_time
  rw [hr, hs]
  simp only [Bool.true_eq_false, if_false]
  rw [if_neg hd, if_pos hge, if_pos hh]

/-- Running flush with a positive delta reaching the second-half length:
countdowns tick, `elapsed` is clamped and the clock stops. -/
theorem flush_time_end_half2 (now : ℚ) (gs : GameState) (t0 : ℚ)
    (hr : gs.snap.running = true) (hs : gs.snap.start_time = some t0)
    (hd : max 0 (now - t0) ≠ 0)
    (hge : gs.half_len ≤ gs.snap.elapsed + max 0 (now - t0))
    (hh : gs.snap.half ≠ 1) :
    flush_time now gs = { gs with snap := { gs.snap with
      players := gs.snap.players.map
        (flushEntity gs.snap.on_field_set (max 0 (now - t0))),
      team_penalties := gs.snap.team_penalties.map
        (fun t => if 0 < t then max 0 (t - max 0 (now - t0)) else t),
      forced_bench_s := gs.snap.forced_bench_s.map
        (fun pp => (pp.1, max 0 (pp.2 - max 0 (now - t0)))),
      elapsed := gs.half_len, running := false,
      start_time := some now,
      last_minute_alert :=
        if max 0 (truncInt (gs.half_len - (gs.snap.elapsed + max 0 (now - t0)))) ≤ 60 ∧
            gs.snap.last_minute_alert = false then true
        else gs.snap.last_minute_alert } } := by
  unfold flush_time
  rw [hr, hs]
  simp only [Bool.true_eq_false, if_false]
  rw [if_neg hd, if_pos hge, if_neg hh]

/-- Every state has `running` either `false` or `true`; small helper to
turn `¬ (running = false)` into `running = true`. -/
theorem running_eq_true_of_ne {gs : GameState}
    (h : ¬ gs.snap.running = false) : gs.snap.running = true := by
  cases hb : gs.snap.running
  · exact absurd hb h
  · rfl

/-- C2: `allowedOnField` computes `max(3, 7 - (active player suspensions +
active team penalties))` with the counts the spec describes, and is never
below the floor of 3. -/
theorem C2_allowed_on_field (gs : GameState) :
    current_allowed_on_field gs = spec_allowedOnField gs ∧
    3 ≤ current_allowed_on_field gs := by
  refine ⟨rfl, ?_⟩
  unfold current_allowed_on_field
  exact le_max_left 3 _

/-- C1: while the clock stays running, a flush never decreases `elapsed`;
after any flush `elapsed` stays within the half length; and a flush whose
delta reaches the half length clamps `elapsed` (to zero after advancing
to half two if this was the first half, to the half length itself in the
second half) and stops the clock. -/
theorem C1_flush_monotone_clamped (now : ℚ) (gs : GameState)
    (h0 : 0 ≤ gs.half_len) (h1 : gs.snap.elapsed ≤ gs.half_len) :
    (flush_time now gs).snap.elapsed ≤ gs.half_len ∧
    ((flush_time now gs).snap.running = true →
      gs.snap.elapsed ≤ (flush_time now gs).snap.elapsed) ∧
    (∀ t0 : ℚ, gs.snap.running = true → gs.snap.start_time = some t0 →
      0 < max 0 (now - t0) →
      gs.half_len ≤ gs.snap.elapsed + max 0 (now - t0) →
      (flush_time now gs).snap.running = false ∧
      (gs.snap.half = 1 → (flush_time now gs).snap.half = 2 ∧
        (flush_time now gs).snap.elapsed = 0) ∧
      (gs.snap.half ≠ 1 → (flush_time now gs).snap.elapsed = gs.half_len)) := by
  by_cases hr : gs.snap.running = false
  · rw [flush_time_not_running now gs hr]
    exact ⟨h1, fun _ => le_refl _, fun t0 hrt => absurd hrt (by rw [hr]; simp)⟩
  · have hr' := running_eq_true_of_ne hr
    cases hs : gs.snap.start_time with
    | none =>
      rw [flush_time_no_start now gs hr' hs]
      exact ⟨h1, fun _ => le_refl _, fun t0 _ hst => absurd hst (by simp)⟩
    | some t0 =>
      by_cases hd : max 0 (now - t0) = 0
      · rw [flush_time_zero_delta now gs t0 hr' hs hd]
        refine ⟨h1, fun _ => le_refl _, fun t0' _ hst hpos _ => ?_⟩
        cases Option.some.inj hst
        rw [hd] at hpos
        exact absurd hpos (lt_irrefl 0)
      · by_cases hge : gs.half_len ≤ gs.snap.elapsed + max 0 (now - t0)
        · by_cases hh : gs.snap.half = 1
          · rw [flush_time_end_half1 now gs t0 hr' hs hd hge hh]
            refine ⟨by simp [h0], by simp, fun t0' _ hst _ _ => ?_⟩
            exact ⟨rfl, fun _ => ⟨rfl, rfl⟩, fun hne => absurd hh hne⟩
          · rw [flush_time_end_half2 now gs t0 hr' hs hd hge hh]
            refine ⟨by simp, by simp, fun t0' _ hst _ _ => ?_⟩
            exact ⟨rfl, fun h1eq => absurd h1eq hh, fun _ => rfl⟩
        · rw [flush_time_advance now gs t0 hr' hs hd (not_le.mp hge)]
          refine ⟨by simp [le_of_lt (not_le.mp hge)], ?_,
            fun t0' _ hst _ hge' => ?_⟩
          · intro _
            have hnn : 0 ≤ max 0 (now - t0) := le_max_left 0 _
            exact le_add_of_nonneg_right hnn
          · cases Option.some.inj hst
            exact absurd hge' hge

/-- Witness for C1 at Scenario E: 1800-second half, elapsed 1750, a
55-second delta; the flush clamps, fires the half transition and resets
for half two. -/
theorem C1_witness :
    (0 : ℚ) ≤ exC1.half_len ∧ exC1.snap.elapsed ≤ exC1.half_len ∧
    ((flush_time 55 exC1).snap.running = false ∧
      (flush_time 55 exC1).snap.half = 2 ∧
      (flush_time 55 exC1).snap.elapsed = 0) := by
  have h := C1_flush_monotone_clamped 55 exC1 (by with_unfolding_all decide)
    (by with_unfolding_all decide)
  have h3 := h.2.2 0 rfl rfl (by with_unfolding_all decide)
    (by with_unfolding_all decide)
  exact ⟨by with_unfolding_all decide, by with_unfolding_all decide, h3.1,
    (h3.2.1 rfl).1, (h3.2.1 rfl).2⟩

/-- C3: a two-minute sanction on a non-disqualified, benched athlete
increments `two_total`; when the new total reaches 3 the athlete is
disqualified with the residual `two_active` countdown untouched and
exactly one 120-second team penalty is appended; otherwise `two_active`
grows by exactly 120 and the team-penalty queue is unchanged. -/
theorem C3_give_two_minutes_player (now : ℚ) (pid : String) (gs : GameState)
    (p : Entity) (hp : alookup gs.snap.players pid = some p)
    (hoff : p.is_official = false) (hdq : p.disq = false)
    (hfield : pid ∉ gs.snap.on_field_set) :
    (give_two_minutes now pid gs).2 = none ∧
    alookup (give_two_minutes now pid gs).1.snap.players pid =
      some (if 3 ≤ p.two_total + 1 then
              { p with two_total := p.two_total + 1, disq := true }
            else { p with two_total := p.two_total + 1,
                          two_active := p.two_active + 120 }) ∧
    (3 ≤ p.two_total + 1 →
      (give_two_minutes now pid gs).1.snap.team_penalties =
        gs.snap.team_penalties ++ [120]) ∧
    (p.two_total + 1 < 3 →
      (give_two_minutes now pid gs).1.snap.team_penalties =
        gs.snap.team_penalties) := by
  unfold give_two_minutes
  rw [hp]
  simp only [hdq, Bool.false_eq_true, if_false, push_snapshot]
  rw [if_neg hfield]
  simp only []
  rw [hp]
  simp only [hoff, Bool.false_eq_true, if_false]
  by_cases h3 : 3 ≤ p.two_total + 1
  · simp only [if_pos h3]
    simp [alookup_aupdate_self, hp, hoff, hdq, not_lt.mpr h3]
  · simp only [if_neg h3]
    simp [alookup_aupdate_self, hp, hoff, hdq, h3]

/-- Witness for C3: athlete `a` of `exC3` holds two prior two-minute
suspensions and a residual 30-second countdown; the third sanction
disqualifies, preserves the countdown and appends one 120-second team
penalty. -/
theorem C3_witness :
    alookup (give_two_minutes 0 "a" exC3).1.snap.players "a" =
      some { num := "7", nome := "Ana", pos := "PE", is_official := false,
             in_field := false, time_played := 0, yellow := 0, two_total := 3,
             two_active := 30, red := 0, disq := true, tech_faults := 0,
             conquistas := [] } ∧
    (give_two_minutes 0 "a" exC3).1.snap.team_penalties = [(120 : ℚ)] := by
  have h := C3_give_two_minutes_player 0 "a" exC3
    { num := "7", nome := "Ana", pos := "PE", is_official := false,
      in_field := false, time_played := 0, yellow := 0, two_total := 2,
      two_active := 30, red := 0, disq := false, tech_faults := 0,
      conquistas := [] }
    (by with_unfolding_all decide) rfl rfl (by with_unfolding_all decide)
  constructor
  · rw [h.2.1]
    with_unfolding_all decide
  · rw [h.2.2.1 (by norm_num)]
    with_unfolding_all decide

/-- C4 counterexample: with the collective two-minute allowance already
used (`officials_two_total = 1`), a two-minute sanction on official `o`
is rejected with the collective-limit warning and appends no team
penalty, yet the resulting state differs from the original: the source
pushes the undo snapshot before the limit check, so the rejected action
overwrites the undo slot. -/
theorem C4_counterexample :
    (give_two_minutes 0 "o" exC4).2 = some Warn.collectiveLimitReached ∧
    (give_two_minutes 0 "o" exC4).1.snap = exC4.snap ∧
    exC4.last_snapshot = none ∧
    (give_two_minutes 0 "o" exC4).1.last_snapshot ≠ none ∧
    (give_two_minutes 0 "o" exC4).1 ≠ exC4 := by
  with_unfolding_all decide

/-- C4 amended: a two-minute sanction on an official while
`officials_two_total` is already at 1 fails with the collective-limit
warning, appends no TeamPenaltyQueue entry and leaves every `SNAP_KEYS`
field unchanged; the only mutation is the undo-snapshot slot, which is
overwritten (pre-check) with a snapshot of the current state. -/
theorem C4_amended_official_two_minutes_rejected (now : ℚ) (pid : String)
    (gs : GameState) (p : Entity) (hp : alookup gs.snap.players pid = some p)
    (hoff : p.is_official = true) (hdq : p.disq = false)
    (hcap : 1 ≤ gs.snap.officials_two_total)
    (hfield : pid ∉ gs.snap.on_field_set) :
    give_two_minutes now pid gs =
      ({ gs with last_snapshot := some (gs.snap, "2\x27 " ++ p.nome) },
       some Warn.collectiveLimitReached) := by
  unfold give_two_minutes
  rw [hp]
  simp only [hdq, Bool.false_eq_true, if_false, push_snapshot]
  rw [if_neg hfield]
  simp only []
  rw [hp]
  simp only [hoff, if_true]
  rw [if_pos hcap]

/-- Witness for the amended C4 at official `o` of `exC4`. -/
theorem C4_witness :
    give_two_minutes 0 "o" exC4 =
      ({ exC4 with last_snapshot := some (exC4.snap, "2\x27 Olga") },
       some Warn.collectiveLimitReached) := by
  have h := C4_amended_official_two_minutes_rejected 0 "o" exC4
    (initOfficial "Olga" "A") (by with_unfolding_all decide) rfl rfl
    (by with_unfolding_all decide) (by with_unfolding_all decide)
  rw [h]
  with_unfolding_all rfl

/-- C8 counterexample: athlete `a` of `exC8` is disqualified with no
achievements; registering an achievement for them nevertheless mutates
their record (the source has no disqualification guard on
`add_conquista`, nor on the technical-fault button). -/
theorem C8_counterexample :
    (alookup exC8.snap.players "a").map (fun p => p.disq) = some true ∧
    (alookup exC8.snap.players "a").map (fun p => p.conquistas) = some [] ∧
    (alookup (add_conquista "a" "Roubo de Bola" exC8).snap.players "a").map
      (fun p => p.conquistas) = some [((0 : ℤ), "Roubo de Bola")] := by
  with_unfolding_all decide

/-- C8 amended: every sanction (`give_yellow`, `give_two_minutes`,
`give_red`) and every ledger-scoring action (`register_goal`,
`register_shot`) on a disqualified entity is rejected with the
already-disqualified warning and leaves the whole state unchanged;
achievement registration and the technical-fault increment carry no such
guard and can still mutate a disqualified entity. -/
theorem C8_amended_disqualified_guarded (now : ℚ) (pid typ outcome : String)
    (zona : Option ℕ) (sofrido : Bool) (gs : GameState) (p : Entity)
    (hp : alookup gs.snap.players pid = some p) (hdq : p.disq = true) :
    give_yellow pid gs = (gs, some Warn.alreadyDisqualified) ∧
    give_two_minutes now pid gs = (gs, some Warn.alreadyDisqualified) ∧
    give_red now pid gs = (gs, some Warn.alreadyDisqualified) ∧
    register_goal pid typ zona sofrido gs = (gs, some Warn.alreadyDisqualified) ∧
    register_shot pid outcome typ zona sofrido gs =
      (gs, some Warn.alreadyDisqualified) := by
  unfold give_yellow give_two_minutes give_red register_goal register_shot
  rw [hp]
  simp [hdq]

/-- Witness for the amended C8 at the disqualified athlete `a` of `exC8`. -/
theorem C8_witness :
    give_yellow "a" exC8 = (exC8, some Warn.alreadyDisqualified) ∧
    give_two_minutes 0 "a" exC8 = (exC8, some Warn.alreadyDisqualified) ∧
    give_red 0 "a" exC8 = (exC8, some Warn.alreadyDisqualified) := by
  have h := C8_amended_disqualified_guarded 0 "a" "9m" "falhado" none false exC8
    { num := "7", nome := "Ana", pos := "PE", is_official := false,
      in_field := false, time_played := 0, yellow := 0, two_total := 0,
      two_active := 0, red := 0, disq := true, tech_faults := 0,
      conquistas := [] }
    (by with_unfolding_all decide) rfl
  exact ⟨h.1, h.2.1, h.2.2.1⟩

/-- Helper: ticking with a zero delta leaves every penalty entry as it
was. -/
theorem tick_zero_map (l : List ℚ) :
    l.map (fun t => if 0 < t then max 0 (t - 0) else t) = l := by
  induction l with
  | nil => rfl
  | cons t rest ih =>
    simp only [List.map_cons, ih]
    congr 1
    by_cases h : 0 < t
    · rw [if_pos h]
      simp [le_of_lt h]
    · rw [if_neg h]

/-- C9 counterexample: a pending 120-second team penalty that expires
during a flush is clamped to zero but stays in the queue; after the
flush the queue is `[0]`, not the empty queue the claim requires. -/
theorem C9_counterexample :
    (flush_time 120 exC9).snap.team_penalties = [(0 : ℚ)] ∧
    ¬ (∀ t ∈ (flush_time 120 exC9).snap.team_penalties, 0 < t) := by
  with_unfolding_all decide

/-- C9 amended: a flush counts every positive queue entry down by the
common delta, clamping at zero, and keeps expired entries in the queue
as zeros; exactly one 120-second entry is appended by a red card, by an
official two-minute sanction within the collective allowance, and by the
athlete third two-minute disqualification, while a non-third athlete
two-minute sanction appends none. -/
theorem C9_amended_penalty_queue (now : ℚ) (gs : GameState) (pid : String) :
    (∃ d : ℚ, 0 ≤ d ∧
      (flush_time now gs).snap.team_penalties =
        gs.snap.team_penalties.map (fun t => if 0 < t then max 0 (t - d) else t)) ∧
    (∀ p : Entity, alookup gs.snap.players pid = some p → p.disq = false →
      pid ∉ gs.snap.on_field_set →
      (give_red now pid gs).1.snap.team_penalties =
        gs.snap.team_penalties ++ [120]) ∧
    (∀ p : Entity, alookup gs.snap.players pid = some p → p.disq = false →
      pid ∉ gs.snap.on_field_set → p.is_official = true →
      gs.snap.officials_two_total = 0 →
      (give_two_minutes now pid gs).1.snap.team_penalties =
        gs.snap.team_penalties ++ [120]) ∧
    (∀ p : Entity, alookup gs.snap.players pid = some p → p.disq = false →
      pid ∉ gs.snap.on_field_set → p.is_official = false →
      3 ≤ p.two_total + 1 →
      (give_two_minutes now pid gs).1.snap.team_penalties =
        gs.snap.team_penalties ++ [120]) ∧
    (∀ p : Entity, alookup gs.snap.players pid = some p → p.disq = false →
      pid ∉ gs.snap.on_field_set → p.is_official = false →
      p.two_total + 1 < 3 →
      (give_two_minutes now pid gs).1.snap.team_penalties =
        gs.snap.team_penalties) := by
  refine ⟨?_, ?_, ?_, ?_, ?_⟩
  · by_cases hr : gs.snap.running = false
    · exact ⟨0, le_refl 0, by rw [flush_time_not_running now gs hr, tick_zero_map]⟩
    · have hr' := running_eq_true_of_ne hr
      cases hs : gs.snap.start_time with
      | none =>
        exact ⟨0, le_refl 0,
          by rw [flush_time_no_start now gs hr' hs, tick_zero_map]⟩
      | some t0 =>
        by_cases hd : max 0 (now - t0) = 0
        · exact ⟨0, le_refl 0,
            by rw [flush_time_zero_delta now gs t0 hr' hs hd, tick_zero_map]⟩
        · refine ⟨max 0 (now - t0), le_max_left 0 _, ?_⟩
          by_cases hge : gs.half_len ≤ gs.snap.elapsed + max 0 (now - t0)
          · by_cases hh : gs.snap.half = 1
            · rw [flush_time_end_half1 now gs t0 hr' hs hd hge hh]
            · rw [flush_time_end_half2 now gs t0 hr' hs hd hge hh]
          · rw [flush_time_advance now gs t0 hr' hs hd (not_le.mp hge)]
  · intro p hp hdq hfield
    unfold give_red
    rw [hp]
    simp only [hdq, Bool.false_eq_true, if_false, push_snapshot]
    rw [if_neg hfield]
  · intro p hp hdq hfield hoff hcap
    unfold give_two_minutes
    rw [hp]
    simp only [hdq, Bool.false_eq_true, if_false, push_snapshot]
    rw [if_neg hfield]
    simp only []
    rw [hp]
    simp only [hoff, if_true]
    rw [if_neg (by rw [hcap]; norm_num)]
  · intro p hp hdq hfield hoff h3
    unfold give_two_minutes
    rw [hp]
    simp only [hdq, Bool.false_eq_true, if_false, push_snapshot]
    rw [if_neg hfield]
    simp only []
    rw [hp]
    simp only [hoff, Bool.false_eq_true, if_false]
    rw [if_pos h3]
  · intro p hp hdq hfield hoff h3
    unfold give_two_minutes
    rw [hp]
    simp only [hdq, Bool.false_eq_true, if_false, push_snapshot]
    rw [if_neg hfield]
    simp only []
    rw [hp]
    simp only [hoff, Bool.false_eq_true, if_false]
    rw [if_neg (not_le.mpr h3)]

/-- Witness for the amended C9: a red card on athlete `a` of the fresh
roster appends exactly one 120-second entry to the empty queue. -/
theorem C9_witness :
    (give_red 0 "a" baseGS).1.snap.team_penalties = [(120 : ℚ)] := by
  have h := (C9_amended_penalty_queue 0 baseGS "a").2.1
    (initAthlete "7" "Ana" "PE") (by with_unfolding_all decide) rfl
    (by with_unfolding_all decide)
  rw [h]
  with_unfolding_all decide

/-! ### Which handlers push the undo snapshot -/

/-- `flush_time` never touches the undo slot. -/
theorem flush_time_last_snapshot (now : ℚ) (gs : GameState) :
    (flush_time now gs).last_snapshot = gs.last_snapshot := by
  unfold flush_time
  split
  · rfl
  · split
    · rfl
    · dsimp only
      repeat' split
      all_goals rfl

/-- `give_yellow` either rejects without touching the state or stores a
snapshot of the pre-action state. -/
theorem give_yellow_push (pid : String) (gs : GameState) :
    (give_yellow pid gs).1 = gs ∨
    ∃ label, (give_yellow pid gs).1.last_snapshot = some (gs.snap, label) := by
  unfold give_yellow
  split
  · exact Or.inl rfl
  · split
    · exact Or.inl rfl
    · split
      · split
        · exact Or.inl rfl
        · split
          · exact Or.inl rfl
          · exact Or.inr ⟨_, rfl⟩
      · split
        · exact Or.inl rfl
        · split
          · exact Or.inl rfl
          · exact Or.inr ⟨_, rfl⟩

/-- `give_two_minutes` either rejects on the disqualification guard
without touching the state or stores a snapshot of the pre-action
state (also on the later official-limit rejection). -/
theorem give_two_minutes_push (now : ℚ) (pid : String) (gs : GameState) :
    (give_two_minutes now pid gs).1 = gs ∨
    ∃ label, (give_two_minutes now pid gs).1.last_snapshot =
      some (gs.snap, label) := by
  unfold give_two_minutes
  cases hp : alookup gs.snap.players pid with
  | none => exact Or.inl rfl
  | some p0 =>
    dsimp only
    by_cases hd : p0.disq = true
    · rw [if_pos hd]
      exact Or.inl rfl
    · rw [if_neg hd]
      right
      have hls : (if pid ∈ (push_snapshot ("2\x27 " ++ p0.nome) gs).snap.on_field_set
            then removeFromField pid
              (flush_time now (push_snapshot ("2\x27 " ++ p0.nome) gs))
            else push_snapshot ("2\x27 " ++ p0.nome) gs).last_snapshot
          = some (gs.snap, "2\x27 " ++ p0.nome) := by
        split
        · exact flush_time_last_snapshot now (push_snapshot _ gs)
        · rfl
      cases hq : alookup (if pid ∈ (push_snapshot ("2\x27 " ++ p0.nome) gs).snap.on_field_set
            then removeFromField pid
              (flush_time now (push_snapshot ("2\x27 " ++ p0.nome) gs))
            else push_snapshot ("2\x27 " ++ p0.nome) gs).snap.players pid with
      | none => exact ⟨_, hls⟩
      | some p =>
        dsimp only
        by_cases ho : p.is_official = true
        · rw [if_pos ho]
          by_cases hc : 1 ≤ (if pid ∈ (push_snapshot ("2\x27 " ++ p0.nome) gs).snap.on_field_set
              then removeFromField pid
                (flush_time now (push_snapshot ("2\x27 " ++ p0.nome) gs))
              else push_snapshot ("2\x27 " ++ p0.nome) gs).snap.officials_two_total
          · rw [if_pos hc]
            exact ⟨_, hls⟩
          · rw [if_neg hc]
            exact ⟨_, hls⟩
        · rw [if_neg ho]
          by_cases h3 : 3 ≤ p.two_total + 1
          · rw [if_pos h3]
            exact ⟨_, hls⟩
          · rw [if_neg h3]
            exact ⟨_, hls⟩

/-- `give_red` either rejects without touching the state or stores a
snapshot of the pre-action state. -/
theorem give_red_push (now : ℚ) (pid : String) (gs : GameState) :
    (give_red now pid gs).1 = gs ∨
    ∃ label, (give_red now pid gs).1.last_snapshot = some (gs.snap, label) := by
  unfold give_red
  cases hp : alookup gs.snap.players pid with
  | none => exact Or.inl rfl
  | some p0 =>
    dsimp only
    by_cases hd : p0.disq = true
    · rw [if_pos hd]
      exact Or.inl rfl
    · rw [if_neg hd]
      right
      have hls : (if pid ∈ (push_snapshot ("Vermelho " ++ p0.nome) gs).snap.on_field_set
            then removeFromField pid
              (flush_time now (push_snapshot ("Vermelho " ++ p0.nome) gs))
            else push_snapshot ("Vermelho " ++ p0.nome) gs).last_snapshot
          = some (gs.snap, "Vermelho " ++ p0.nome) := by
        split
        · exact flush_time_last_snapshot now (push_snapshot _ gs)
        · rfl
      exact ⟨_, hls⟩

/-- `register_goal` either rejects without touching the state or stores
a snapshot of the pre-action state. -/
theorem register_goal_push (pid typ : String) (zona : Option ℕ) (sofrido : Bool)
    (gs : GameState) :
    (register_goal pid typ zona sofrido gs).1 = gs ∨
    ∃ label, (register_goal pid typ zona sofrido gs).1.last_snapshot =
      some (gs.snap, label) := by
  unfold register_goal
  split
  · exact Or.inl rfl
  · split
    · exact Or.inl rfl
    · exact Or.inr ⟨_, rfl⟩

/-- `register_shot` either rejects without touching the state or stores
a snapshot of the pre-action state. -/
theorem register_shot_push (pid outcome typ : String) (zona : Option ℕ)
    (sofrido : Bool) (gs : GameState) :
    (register_shot pid outcome typ zona sofrido gs).1 = gs ∨
    ∃ label, (register_shot pid outcome typ zona sofrido gs).1.last_snapshot =
      some (gs.snap, label) := by
  unfold register_shot
  split
  · exact Or.inl rfl
  · split
    · exact Or.inl rfl
    · exact Or.inr ⟨_, rfl⟩

/-- The technical-fault handler either does nothing or stores a snapshot
of the pre-action state. -/
theorem tech_fault_push (pid : String) (gs : GameState) :
    tech_fault pid gs = gs ∨
    ∃ label, (tech_fault pid gs).last_snapshot = some (gs.snap, label) := by
  unfold tech_fault
  split
  · exact Or.inl rfl
  · split
    · exact Or.inl rfl
    · exact Or.inr ⟨_, rfl⟩

/-- The forced-substitution resolution either does nothing or stores a
snapshot of the pre-action state. -/
theorem force_out_choice_push (now : ℚ) (pid : String) (duration : ℚ)
    (reason : String) (gs : GameState) :
    force_out_choice now pid duration reason gs = gs ∨
    ∃ label, (force_out_choice now pid duration reason gs).last_snapshot =
      some (gs.snap, label) := by
  unfold force_out_choice
  cases hp : alookup gs.snap.players pid with
  | none => exact Or.inl rfl
  | some p =>
    dsimp only
    by_cases hc : pid ∈ gs.snap.on_field_set ∧ p.is_official = false
    · rw [if_pos hc]
      exact Or.inr ⟨"Retirar " ++ p.nome ++ " (" ++ reason ++ ")",
        flush_time_last_snapshot now
          (push_snapshot ("Retirar " ++ p.nome ++ " (" ++ reason ++ ")") gs)⟩
    · rw [if_neg hc]
      exact Or.inl rfl

/-- Restoring a stored pre-action snapshot reproduces its `SNAP_KEYS`
fields exactly and clears the slot. -/
theorem undo_of_pushed {gs gs' : GameState} {label : String}
    (h : gs'.last_snapshot = some (gs.snap, label)) :
    (undo_last gs').1.snap = gs.snap ∧ (undo_last gs').1.last_snapshot = none ∧
    (undo_last gs').2 = none := by
  unfold undo_last
  rw [h]
  exact ⟨rfl, rfl, rfl⟩

/-- C5 counterexample: field entry is a mutating action (athlete `a`
enters the field) but pushes no snapshot, so an immediate `undo` cannot
restore the pre-action state: starting from a fresh state with an empty
undo slot, the undo after the toggle fails with NothingToUndo and the
toggled state keeps the athlete on the field. -/
theorem C5_counterexample :
    applyAction (Action.toggle 0 "a") baseGS ≠ baseGS ∧
    (undo_last (applyAction (Action.toggle 0 "a") baseGS)).1.snap ≠ baseGS.snap ∧
    (undo_last (applyAction (Action.toggle 0 "a") baseGS)).2 =
      some Warn.nothingToUndo := by
  with_unfolding_all decide

/-- C5 amended: for the snapshot-pushing mutating actions (sanctions,
goal and shot registration, technical fault, forced withdrawal) an
immediate `undo` restores every `SNAP_KEYS` field of the pre-action
state exactly and clears the undo slot (unless the action rejected
before its snapshot push, in which case the state is untouched); a
second `undo` with an empty slot fails with NothingToUndo and changes
nothing.  The clock flush and field entry/exit push no snapshot, so
undo after them does not restore their pre-action state. -/
theorem C5_amended_undo_roundtrip (a : Action) (gs : GameState)
    (ha : snapshotPushing a = true) :
    (applyAction a gs = gs ∨
      ((undo_last (applyAction a gs)).1.snap = gs.snap ∧
       (undo_last (applyAction a gs)).1.last_snapshot = none ∧
       (undo_last (applyAction a gs)).2 = none)) ∧
    (∀ gs2 : GameState, gs2.last_snapshot = none →
      undo_last gs2 = (gs2, some Warn.nothingToUndo)) := by
  constructor
  · cases a with
    | flush now => simp [snapshotPushing] at ha
    | start now => simp [snapshotPushing] at ha
    | pause now => simp [snapshotPushing] at ha
    | conquista pid label => simp [snapshotPushing] at ha
    | toggle now pid => simp [snapshotPushing] at ha
    | undo => simp [snapshotPushing] at ha
    | yellow pid =>
      rcases give_yellow_push pid gs with h | ⟨label, h⟩
      · exact Or.inl h
      · exact Or.inr (undo_of_pushed h)
    | twoMin now pid =>
      rcases give_two_minutes_push now pid gs with h | ⟨label, h⟩
      · exact Or.inl h
      · exact Or.inr (undo_of_pushed h)
    | redCard now pid =>
      rcases give_red_push now pid gs with h | ⟨label, h⟩
      · exact Or.inl h
      · exact Or.inr (undo_of_pushed h)
    | goal pid typ zona sofrido =>
      rcases register_goal_push pid typ zona sofrido gs with h | ⟨label, h⟩
      · exact Or.inl h
      · exact Or.inr (undo_of_pushed h)
    | shot pid outcome typ zona sofrido =>
      rcases register_shot_push pid outcome typ zona sofrido gs with h | ⟨label, h⟩
      · exact Or.inl h
      · exact Or.inr (undo_of_pushed h)
    | tech pid =>
      rcases tech_fault_push pid gs with h | ⟨label, h⟩
      · exact Or.inl h
      · exact Or.inr (undo_of_pushed h)
    | forceOut now pid duration reason =>
      rcases force_out_choice_push now pid duration reason gs with h | ⟨label, h⟩
      · exact Or.inl h
      · exact Or.inr (undo_of_pushed h)
  · intro gs2 h2
    unfold undo_last
    rw [h2]

/-- Witness for the amended C5: a yellow card on athlete `a` of the
fresh roster mutates the state; undo restores the pre-action `SNAP_KEYS`
fields exactly, and the second undo fails with NothingToUndo. -/
theorem C5_witness :
    (undo_last (applyAction (Action.yellow "a") baseGS)).1.snap = baseGS.snap ∧
    (undo_last (applyAction (Action.yellow "a") baseGS)).2 = none ∧
    undo_last (undo_last (applyAction (Action.yellow "a") baseGS)).1 =
      ((undo_last (applyAction (Action.yellow "a") baseGS)).1,
        some Warn.nothingToUndo) := by
  have h := C5_amended_undo_roundtrip (Action.yellow "a") baseGS rfl
  rcases h.1 with h1 | h1
  · exact absurd h1 (by with_unfolding_all decide)
  · exact ⟨h1.1, h1.2.2, h.2 _ h1.2.1⟩

/-! ### Invariant preservation -/

theorem keys_aupdate {α : Type} (f : α → α) (k : String) (l : List (String × α)) :
    (aupdate f k l).map Prod.fst = l.map Prod.fst := by
  induction l with
  | nil => rfl
  | cons pp rest ih =>
    by_cases h : pp.1 = k <;> simp [aupdate, h, ih]

theorem mem_setDiscard {x k : String} {s : List String} :
    x ∈ setDiscard k s ↔ x ∈ s ∧ x ≠ k := by
  simp [setDiscard]

theorem mem_setAdd {x k : String} {s : List String} :
    x ∈ setAdd k s ↔ x ∈ s ∨ x = k := by
  unfold setAdd
  split
  · constructor
    · intro h1
      exact Or.inl h1
    · rintro (h1 | rfl)
      · exact h1
      · assumption
  · simp [List.mem_append]

theorem alookup_bench_tick (l : List (String × ℚ)) (delta : ℚ) (k : String) :
    alookup (l.map (fun pp => (pp.1, max 0 (pp.2 - delta)))) k =
      (alookup l k).map (fun v => max 0 (v - delta)) := by
  induction l with
  | nil => rfl
  | cons pp rest ih =>
    by_cases h : pp.1 = k <;> simp [alookup, h, ih]

theorem alookup_of_mem_nodup {α : Type} {l : List (String × α)} {k : String}
    {v : α} (hn : (l.map Prod.fst).Nodup) (hm : (k, v) ∈ l) :
    alookup l k = some v := by
  induction l with
  | nil => simp at hm
  | cons pp rest ih =>
    rw [List.map_cons, List.nodup_cons] at hn
    rcases List.mem_cons.mp hm with h1 | h1
    · rw [← h1]
      simp [alookup]
    · have hk : pp.1 ≠ k := by
        intro he
        exact hn.1 (he ▸ List.mem_map_of_mem Prod.fst h1)
      rw [alookup, if_neg hk]
      exact ih hn.2 h1

theorem flushEntity_fields (onField : List String) (delta : ℚ)
    (pp : String × Entity) :
    (flushEntity onField delta pp).1 = pp.1 ∧
    (flushEntity onField delta pp).2.in_field = pp.2.in_field ∧
    (flushEntity onField delta pp).2.disq = pp.2.disq ∧
    (¬ 0 < pp.2.two_active →
      (flushEntity onField delta pp).2.two_active = pp.2.two_active) := by
  unfold flushEntity
  dsimp only
  split <;> split <;> simp_all

theorem keys_tick (s : SnapState) (delta : ℚ) :
    (s.players.map (flushEntity s.on_field_set delta)).map Prod.fst =
      s.players.map Prod.fst := by
  rw [List.map_map]
  apply List.map_congr_left
  intro a _
  exact (flushEntity_fields _ _ a).1

theorem couplingOK_tick (s : SnapState) (delta : ℚ) (h : CouplingOK s) :
    ∀ pp ∈ s.players.map (flushEntity s.on_field_set delta),
      (pp.2.in_field = true ↔ pp.1 ∈ s.on_field_set) := by
  intro pp hm
  rcases List.mem_map.mp hm with ⟨qq, hq, rfl⟩
  have hf := flushEntity_fields s.on_field_set delta qq
  rw [hf.1, hf.2.1]
  exact h qq hq

theorem fieldOK_tick (s : SnapState) (delta : ℚ) (hdelta : 0 ≤ delta)
    (h : FieldOK s) :
    ∀ pp ∈ s.players.map (flushEntity s.on_field_set delta),
      pp.2.in_field = true →
      pp.2.disq = false ∧ ¬ 0 < pp.2.two_active ∧
      ¬ 0 < ((alookup (s.forced_bench_s.map
        (fun bb => (bb.1, max 0 (bb.2 - delta)))) pp.1).getD 0) := by
  intro pp hm hif
  rcases List.mem_map.mp hm with ⟨qq, hq, rfl⟩
  have hf := flushEntity_fields s.on_field_set delta qq
  rw [hf.2.1] at hif
  have hold := h qq hq hif
  refine ⟨by rw [hf.2.2.1]; exact hold.1, ?_, ?_⟩
  · rw [hf.2.2.2 hold.2.1]
    exact hold.2.1
  · rw [hf.1, alookup_bench_tick]
    cases hb : alookup s.forced_bench_s qq.1 with
    | none => simp
    | some v =>
      have hv : ¬ 0 < v := by
        have hbo := hold.2.2
        unfold bench_of at hbo
        rw [hb] at hbo
        exact hbo
      show ¬ 0 < ((some v).map (fun w => max 0 (w - delta))).getD 0
      simp only [Option.map_some', Option.getD_some]
      intro hcon
      have hle : v - delta ≤ 0 := by linarith [not_lt.mp hv]
      rw [max_eq_left hle] at hcon
      exact lt_irrefl 0 hcon

theorem keysOK_tick (s : SnapState) (delta : ℚ) (h : KeysOK s) :
    ((s.players.map (flushEntity s.on_field_set delta)).map Prod.fst).Nodup := by
  rw [keys_tick]
  exact h

theorem snapInv_flush (now : ℚ) (gs : GameState) (h : SnapInv gs.snap) :
    SnapInv (flush_time now gs).snap := by
  obtain ⟨hcaps, hhalf, hghalf, hscore, hcoup, hfield, hkeys⟩ := h
  by_cases hr : gs.snap.running = false
  · rw [flush_time_not_running now gs hr]
    exact ⟨hcaps, hhalf, hghalf, hscore, hcoup, hfield, hkeys⟩
  · have hr' := running_eq_true_of_ne hr
    cases hs : gs.snap.start_time with
    | none =>
      rw [flush_time_no_start now gs hr' hs]
      exact ⟨hcaps, hhalf, hghalf, hscore, hcoup, hfield, hkeys⟩
    | some t0 =>
      by_cases hd : max 0 (now - t0) = 0
      · rw [flush_time_zero_delta now gs t0 hr' hs hd]
        exact ⟨hcaps, hhalf, hghalf, hscore, hcoup, hfield, hkeys⟩
      · have hdel : (0 : ℚ) ≤ max 0 (now - t0) := le_max_left 0 _
        by_cases hge : gs.half_len ≤ gs.snap.elapsed + max 0 (now - t0)
        · by_cases hh : gs.snap.half = 1
          · rw [flush_time_end_half1 now gs t0 hr' hs hd hge hh]
            exact ⟨hcaps, Or.inr rfl, hghalf, hscore,
              couplingOK_tick _ _ hcoup, fieldOK_tick _ _ hdel hfield,
              keysOK_tick _ _ hkeys⟩
          · rw [flush_time_end_half2 now gs t0 hr' hs hd hge hh]
            exact ⟨hcaps, hhalf, hghalf, hscore,
              couplingOK_tick _ _ hcoup, fieldOK_tick _ _ hdel hfield,
              keysOK_tick _ _ hkeys⟩
        · rw [flush_time_advance now gs t0 hr' hs hd (not_le.mp hge)]
          exact ⟨hcaps, hhalf, hghalf, hscore,
            couplingOK_tick _ _ hcoup, fieldOK_tick _ _ hdel hfield,
            keysOK_tick _ _ hkeys⟩

theorem inv_flush (now : ℚ) (gs : GameState) (h : Inv gs) :
    Inv (flush_time now gs) := by
  refine ⟨snapInv_flush now gs h.1, ?_⟩
  intro sl hsl
  rw [flush_time_last_snapshot] at hsl
  exact h.2 sl hsl

theorem inv_push (label : String) (gs : GameState) (h : Inv gs) :
    Inv (push_snapshot label gs) := by
  refine ⟨h.1, ?_⟩
  intro sl hsl
  have : (gs.snap, label) = sl := Option.some.inj hsl
  rw [← this]
  exact h.1


theorem couplingOK_update (s : SnapState) (f : Entity → Entity) (k : String)
    (hf : ∀ q, (f q).in_field = q.in_field) (h : CouplingOK s) :
    ∀ pp ∈ aupdate f k s.players,
      (pp.2.in_field = true ↔ pp.1 ∈ s.on_field_set) := by
  intro pp hm
  rcases mem_aupdate hm with ⟨qq, hq, hk1, hcase⟩
  rw [hk1]
  rcases hcase with ⟨_, heq⟩ | ⟨_, heq⟩
  · rw [heq]
    exact h qq hq
  · rw [heq, hf]
    exact h qq hq

theorem fieldOK_update_preserve (s : SnapState) (f : Entity → Entity) (k : String)
    (hf : ∀ q, (f q).in_field = q.in_field ∧ (f q).disq = q.disq ∧
      (f q).two_active = q.two_active)
    (h : FieldOK s) :
    ∀ pp ∈ aupdate f k s.players, pp.2.in_field = true →
      pp.2.disq = false ∧ ¬ 0 < pp.2.two_active ∧ ¬ 0 < bench_of s pp.1 := by
  intro pp hm hif
  rcases mem_aupdate hm with ⟨qq, hq, hk1, hcase⟩
  rw [hk1]
  rcases hcase with ⟨_, heq⟩ | ⟨_, heq⟩
  · rw [heq] at hif ⊢
    exact h qq hq hif
  · rw [heq] at hif ⊢
    rw [(hf qq.2).1] at hif
    have hold := h qq hq hif
    exact ⟨by rw [(hf qq.2).2.1]; exact hold.1,
           by rw [(hf qq.2).2.2]; exact hold.2.1, hold.2.2⟩

theorem fieldOK_update_keyoff (s : SnapState) (f : Entity → Entity) (k : String)
    (hf : ∀ q, (f q).in_field = q.in_field)
    (hkoff : ∀ qq ∈ s.players, qq.1 = k → qq.2.in_field = false)
    (h : FieldOK s) :
    ∀ pp ∈ aupdate f k s.players, pp.2.in_field = true →
      pp.2.disq = false ∧ ¬ 0 < pp.2.two_active ∧ ¬ 0 < bench_of s pp.1 := by
  intro pp hm hif
  rcases mem_aupdate hm with ⟨qq, hq, hk1, hcase⟩
  rcases hcase with ⟨_, heq⟩ | ⟨hkk, heq⟩
  · rw [hk1]
    rw [heq] at hif ⊢
    exact h qq hq hif
  · exfalso
    rw [heq, hf] at hif
    rw [hkoff qq hq hkk] at hif
    exact Bool.false_ne_true hif

theorem aupdate_key_in_field_false (l : List (String × Entity)) (k : String)
    (qq : String × Entity)
    (hm : qq ∈ aupdate (fun q => { q with in_field := false }) k l)
    (hk : qq.1 = k) : qq.2.in_field = false := by
  rcases mem_aupdate hm with ⟨rr, hr, hk1, hcase⟩
  rcases hcase with ⟨hne, heq⟩ | ⟨_, heq⟩
  · exact absurd (hk1.symm.trans hk) hne
  · rw [heq]

theorem snapInv_remove (pid : String) (gs : GameState) (h : SnapInv gs.snap) :
    SnapInv (removeFromField pid gs).snap := by
  obtain ⟨hcaps, hhalf, hghalf, hscore, hcoup, hfield, hkeys⟩ := h
  unfold removeFromField
  refine ⟨hcaps, hhalf, hghalf, hscore, ?_, ?_, ?_⟩
  · intro pp hm
    rcases mem_aupdate hm with ⟨qq, hq, hk1, hcase⟩
    rw [hk1]
    rcases hcase with ⟨hne, heq⟩ | ⟨hkk, heq⟩
    · rw [heq]
      constructor
      · intro hif
        exact mem_setDiscard.mpr ⟨(hcoup qq hq).mp hif, hne⟩
      · intro hmem
        exact (hcoup qq hq).mpr (mem_setDiscard.mp hmem).1
    · rw [heq]
      simp [mem_setDiscard, hkk]
  · intro pp hm hif
    rcases mem_aupdate hm with ⟨qq, hq, hk1, hcase⟩
    rcases hcase with ⟨hne, heq⟩ | ⟨hkk, heq⟩
    · rw [hk1]
      rw [heq] at hif ⊢
      exact hfield qq hq hif
    · rw [heq] at hif
      exact absurd hif (by simp)
  · show ((aupdate _ pid gs.snap.players).map Prod.fst).Nodup
    rw [keys_aupdate]
    exact hkeys

theorem inv_undo (gs : GameState) (h : Inv gs) : Inv (undo_last gs).1 := by
  unfold undo_last
  cases hsl : gs.last_snapshot with
  | none => exact h
  | some sl =>
    refine ⟨h.2 sl hsl, ?_⟩
    intro sl2 hsl2
    exact absurd hsl2 (by simp)

theorem inv_start_play (now : ℚ) (gs : GameState) (h : Inv gs) :
    Inv (start_play now gs).1 := by
  unfold start_play
  split
  · exact h
  · exact h

theorem inv_pause_play (now : ℚ) (gs : GameState) (h : Inv gs) :
    Inv (pause_play now gs) := by
  unfold pause_play
  by_cases hr : gs.snap.running = true
  · rw [if_pos hr]
    exact inv_flush now gs h
  · rw [if_neg hr]
    exact h

theorem inv_give_yellow (pid : String) (gs : GameState) (h : Inv gs) :
    Inv (give_yellow pid gs).1 := by
  unfold give_yellow
  cases hp : alookup gs.snap.players pid with
  | none => exact h
  | some p =>
    dsimp only
    by_cases hd : p.disq = true
    · rw [if_pos hd]
      exact h
    · rw [if_neg hd]
      by_cases ho : p.is_official = true
      · rw [if_pos ho]
        by_cases h1 : 1 ≤ gs.snap.officials_yellow_total
        · rw [if_pos h1]
          exact h
        · rw [if_neg h1]
          by_cases h2 : 1 ≤ p.yellow
          · rw [if_pos h2]
            exact h
          · rw [if_neg h2]
            obtain ⟨⟨hcaps, hhalf, hghalf, hscore, hcoup, hfield, hkeys⟩, hslot⟩ :=
              inv_push ("Amarelo Oficial " ++ p.nome) gs h
            refine ⟨⟨⟨hcaps.1, ?_, hcaps.2.2⟩, hhalf, hghalf, hscore, ?_, ?_, ?_⟩, hslot⟩
            · show gs.snap.officials_yellow_total + 1 ≤ 1
              omega
            · exact couplingOK_update _ _ _ (fun q => rfl) hcoup
            · exact fieldOK_update_preserve _ _ _ (fun q => ⟨rfl, rfl, rfl⟩) hfield
            · show ((aupdate _ pid _).map Prod.fst).Nodup
              rw [keys_aupdate]
              exact hkeys
      · rw [if_neg ho]
        by_cases h1 : 3 ≤ gs.snap.team_yellow_total
        · rw [if_pos h1]
          exact h
        · rw [if_neg h1]
          by_cases h2 : 1 ≤ p.yellow
          · rw [if_pos h2]
            exact h
          · rw [if_neg h2]
            obtain ⟨⟨hcaps, hhalf, hghalf, hscore, hcoup, hfield, hkeys⟩, hslot⟩ :=
              inv_push ("Amarelo " ++ p.nome) gs h
            refine ⟨⟨⟨?_, hcaps.2.1, hcaps.2.2⟩, hhalf, hghalf, hscore, ?_, ?_, ?_⟩, hslot⟩
            · show gs.snap.team_yellow_total + 1 ≤ 3
              omega
            · exact couplingOK_update _ _ _ (fun q => rfl) hcoup
            · exact fieldOK_update_preserve _ _ _ (fun q => ⟨rfl, rfl, rfl⟩) hfield
            · show ((aupdate _ pid _).map Prod.fst).Nodup
              rw [keys_aupdate]
              exact hkeys


theorem inv_give_two_minutes (now : ℚ) (pid : String) (gs : GameState)
    (h : Inv gs) : Inv (give_two_minutes now pid gs).1 := by
  unfold give_two_minutes
  cases hp : alookup gs.snap.players pid with
  | none => exact h
  | some p0 =>
    dsimp only
    by_cases hd : p0.disq = true
    · rw [if_pos hd]
      exact h
    · rw [if_neg hd]
      set G : GameState :=
        (if pid ∈ (push_snapshot ("2\x27 " ++ p0.nome) gs).snap.on_field_set
         then removeFromField pid
           (flush_time now (push_snapshot ("2\x27 " ++ p0.nome) gs))
         else push_snapshot ("2\x27 " ++ p0.nome) gs) with hGdef
      have hG : Inv G := by
        rw [hGdef]
        split
        · have h1 := inv_flush now _ (inv_push ("2\x27 " ++ p0.nome) gs h)
          exact ⟨snapInv_remove pid _ h1.1, fun sl hsl => h1.2 sl hsl⟩
        · exact inv_push _ gs h
      have hkoff : ∀ qq ∈ G.snap.players, qq.1 = pid → qq.2.in_field = false := by
        rw [hGdef]
        split
        · intro qq hq hk
          exact aupdate_key_in_field_false _ pid qq hq hk
        · rename_i hnotin
          intro qq hq hk
          cases hb : qq.2.in_field
          · rfl
          · exfalso
            have hmem := (h.1.2.2.2.2.1 qq hq).mp hb
            rw [hk] at hmem
            exact hnotin hmem
      cases hq2 : alookup G.snap.players pid with
      | none => exact hG
      | some p =>
        dsimp only
        by_cases ho : p.is_official = true
        · rw [if_pos ho]
          by_cases hc : 1 ≤ G.snap.officials_two_total
          · rw [if_pos hc]
            exact hG
          · rw [if_neg hc]
            obtain ⟨⟨hcaps, hhalf, hghalf, hscore, hcoup, hfield, hkeys⟩, hslot⟩ := hG
            refine ⟨⟨⟨hcaps.1, hcaps.2.1, ?_⟩, hhalf, hghalf, hscore, ?_, ?_, ?_⟩,
              hslot⟩
            · show G.snap.officials_two_total + 1 ≤ 1
              omega
            · exact couplingOK_update _ _ _ (fun q => rfl) hcoup
            · exact fieldOK_update_preserve _ _ _ (fun q => ⟨rfl, rfl, rfl⟩) hfield
            · show ((aupdate _ pid _).map Prod.fst).Nodup
              rw [keys_aupdate]
              exact hkeys
        · rw [if_neg ho]
          by_cases h3 : 3 ≤ p.two_total + 1
          · rw [if_pos h3]
            obtain ⟨⟨hcaps, hhalf, hghalf, hscore, hcoup, hfield, hkeys⟩, hslot⟩ := hG
            refine ⟨⟨hcaps, hhalf, hghalf, hscore, ?_, ?_, ?_⟩, hslot⟩
            · exact couplingOK_update _ _ _ (fun q => rfl) hcoup
            · exact fieldOK_update_keyoff _ _ _ (fun q => rfl) hkoff hfield
            · show ((aupdate _ pid _).map Prod.fst).Nodup
              rw [keys_aupdate]
              exact hkeys
          · rw [if_neg h3]
            obtain ⟨⟨hcaps, hhalf, hghalf, hscore, hcoup, hfield, hkeys⟩, hslot⟩ := hG
            refine ⟨⟨hcaps, hhalf, hghalf, hscore, ?_, ?_, ?_⟩, hslot⟩
            · exact couplingOK_update _ _ _ (fun q => rfl) hcoup
            · exact fieldOK_update_keyoff _ _ _ (fun q => rfl) hkoff hfield
            · show ((aupdate _ pid _).map Prod.fst).Nodup
              rw [keys_aupdate]
              exact hkeys

theorem inv_give_red (now : ℚ) (pid : String) (gs : GameState)
    (h : Inv gs) : Inv (give_red now pid gs).1 := by
  unfold give_red
  cases hp : alookup gs.snap.players pid with
  | none => exact h
  | some p0 =>
    dsimp only
    by_cases hd : p0.disq = true
    · rw [if_pos hd]
      exact h
    · rw [if_neg hd]
      set G : GameState :=
        (if pid ∈ (push_snapshot ("Vermelho " ++ p0.nome) gs).snap.on_field_set
         then removeFromField pid
           (flush_time now (push_snapshot ("Vermelho " ++ p0.nome) gs))
         else push_snapshot ("Vermelho " ++ p0.nome) gs) with hGdef
      have hG : Inv G := by
        rw [hGdef]
        split
        · have h1 := inv_flush now _ (inv_push ("Vermelho " ++ p0.nome) gs h)
          exact ⟨snapInv_remove pid _ h1.1, fun sl hsl => h1.2 sl hsl⟩
        · exact inv_push _ gs h
      have hkoff : ∀ qq ∈ G.snap.players, qq.1 = pid → qq.2.in_field = false := by
        rw [hGdef]
        split
        · intro qq hq hk
          exact aupdate_key_in_field_false _ pid qq hq hk
        · rename_i hnotin
          intro qq hq hk
          cases hb : qq.2.in_field
          · rfl
          · exfalso
            have hmem := (h.1.2.2.2.2.1 qq hq).mp hb
            rw [hk] at hmem
            exact hnotin hmem
      obtain ⟨⟨hcaps, hhalf, hghalf, hscore, hcoup, hfield, hkeys⟩, hslot⟩ := hG
      refine ⟨⟨hcaps, hhalf, hghalf, hscore, ?_, ?_, ?_⟩, hslot⟩
      · exact couplingOK_update _ _ _ (fun q => rfl) hcoup
      · exact fieldOK_update_keyoff _ _ _ (fun q => rfl) hkoff hfield
      · show ((aupdate _ pid _).map Prod.fst).Nodup
        rw [keys_aupdate]
        exact hkeys


theorem goalCount_append_match (s : SnapState) (e : GoalE) (hh : ℕ) (c : Bool)
    (hmatch : e.half = hh ∧ e.sofrido = c) :
    ((s.goals ++ [e]).filter
      (fun x => decide (x.half = hh ∧ x.sofrido = c))).length =
      goalCount s hh c + 1 := by
  unfold goalCount
  rw [List.filter_append, List.length_append]
  congr 1
  simp [List.filter, hmatch]

theorem goalCount_append_miss (s : SnapState) (e : GoalE) (hh : ℕ) (c : Bool)
    (hmiss : ¬ (e.half = hh ∧ e.sofrido = c)) :
    ((s.goals ++ [e]).filter
      (fun x => decide (x.half = hh ∧ x.sofrido = c))).length =
      goalCount s hh c := by
  unfold goalCount
  rw [List.filter_append, List.length_append]
  simp [List.filter, hmiss]

theorem inv_register_goal (pid typ : String) (zona : Option ℕ) (sofrido : Bool)
    (gs : GameState) (h : Inv gs) :
    Inv (register_goal pid typ zona sofrido gs).1 := by
  unfold register_goal
  cases hp : alookup gs.snap.players pid with
  | none => exact h
  | some p =>
    dsimp only
    by_cases hd : p.disq = true
    · rw [if_pos hd]
      exact h
    · rw [if_neg hd]
      simp only [push_snapshot]
      obtain ⟨⟨hcaps, hhalf, hghalf, hscore, hcoup, hfield, hkeys⟩, hslot0⟩ := h
      have hgh : ∀ e : GoalE, e.half = gs.snap.half →
          ∀ x ∈ gs.snap.goals ++ [e], x.half = 1 ∨ x.half = 2 := by
        intro e heh x hx
        rcases List.mem_append.mp hx with hx | hx
        · exact hghalf x hx
        · rw [List.mem_singleton.mp hx, heh]
          exact hhalf
      have hslotN : ∀ sl : SnapState × String,
          (some (gs.snap, "Golo " ++ p.nome ++ " (" ++ typ ++ ")") :
            Option (SnapState × String)) = some sl →
          SnapInv sl.1 := by
        intro sl hsl
        cases Option.some.inj hsl
        exact ⟨hcaps, hhalf, hghalf, hscore, hcoup, hfield, hkeys⟩
      by_cases hh1 : gs.snap.half = 1
      · cases sofrido with
        | false =>
          rw [if_neg (by decide), if_pos hh1]
          refine ⟨⟨hcaps, hhalf, hgh _ rfl, ⟨?_, ?_, ?_, ?_⟩, hcoup, hfield,
            hkeys⟩, hslotN⟩
          · show gs.snap.score_for1 + 1 =
              ((gs.snap.goals ++
                [({ player_id := pid, tipo := typ, zona := zona,
                    half := gs.snap.half, sofrido := false,
                    t := truncInt gs.snap.elapsed } : GoalE)]).filter
                (fun x : GoalE => decide (x.half = 1 ∧ x.sofrido = false))).length
            rw [goalCount_append_match gs.snap _ 1 false ⟨hh1, rfl⟩,
              hscore.1]
          · show gs.snap.score_for2 =
              ((gs.snap.goals ++
                [({ player_id := pid, tipo := typ, zona := zona,
                    half := gs.snap.half, sofrido := false,
                    t := truncInt gs.snap.elapsed } : GoalE)]).filter
                (fun x : GoalE => decide (x.half = 2 ∧ x.sofrido = false))).length
            rw [goalCount_append_miss gs.snap _ 2 false
              (by
              rintro ⟨h2, _⟩
              have h22 : gs.snap.half = 2 := h2
              rw [hh1] at h22
              exact absurd h22 (by decide)),
              hscore.2.1]
          · show gs.snap.score_against1 =
              ((gs.snap.goals ++
                [({ player_id := pid, tipo := typ, zona := zona,
                    half := gs.snap.half, sofrido := false,
                    t := truncInt gs.snap.elapsed } : GoalE)]).filter
                (fun x : GoalE => decide (x.half = 1 ∧ x.sofrido = true))).length
            rw [goalCount_append_miss gs.snap _ 1 true
              (by
              rintro ⟨_, hsf⟩
              have hsf2 : (false : Bool) = true := hsf
              exact absurd hsf2 (by decide)),
              hscore.2.2.1]
          · show gs.snap.score_against2 =
              ((gs.snap.goals ++
                [({ player_id := pid, tipo := typ, zona := zona,
                    half := gs.snap.half, sofrido := false,
                    t := truncInt gs.snap.elapsed } : GoalE)]).filter
                (fun x : GoalE => decide (x.half = 2 ∧ x.sofrido = true))).length
            rw [goalCount_append_miss gs.snap _ 2 true
              (by
              rintro ⟨_, hsf⟩
              have hsf2 : (false : Bool) = true := hsf
              exact absurd hsf2 (by decide)),
              hscore.2.2.2]
        | true =>
          rw [if_pos rfl, if_pos hh1]
          refine ⟨⟨hcaps, hhalf, hgh _ rfl, ⟨?_, ?_, ?_, ?_⟩, hcoup, hfield,
            hkeys⟩, hslotN⟩
          · show gs.snap.score_for1 =
              ((gs.snap.goals ++
                [({ player_id := pid, tipo := typ, zona := zona,
                    half := gs.snap.half, sofrido := true,
                    t := truncInt gs.snap.elapsed } : GoalE)]).filter
                (fun x : GoalE => decide (x.half = 1 ∧ x.sofrido = false))).length
            rw [goalCount_append_miss gs.snap _ 1 false
              (by
              rintro ⟨_, hsf⟩
              have hsf2 : (true : Bool) = false := hsf
              exact absurd hsf2 (by decide)),
              hscore.1]
          · show gs.snap.score_for2 =
              ((gs.snap.goals ++
                [({ player_id := pid, tipo := typ, zona := zona,
                    half := gs.snap.half, sofrido := true,
                    t := truncInt gs.snap.elapsed } : GoalE)]).filter
                (fun x : GoalE => decide (x.half = 2 ∧ x.sofrido = false))).length
            rw [goalCount_append_miss gs.snap _ 2 false
              (by
              rintro ⟨_, hsf⟩
              have hsf2 : (true : Bool) = false := hsf
              exact absurd hsf2 (by decide)),
              hscore.2.1]
          · show gs.snap.score_against1 + 1 =
              ((gs.snap.goals ++
                [({ player_id := pid, tipo := typ, zona := zona,
                    half := gs.snap.half, sofrido := true,
                    t := truncInt gs.snap.elapsed } : GoalE)]).filter
                (fun x : GoalE => decide (x.half = 1 ∧ x.sofrido = true))).length
            rw [goalCount_append_match gs.snap _ 1 true ⟨hh1, rfl⟩,
              hscore.2.2.1]
          · show gs.snap.score_against2 =
              ((gs.snap.goals ++
                [({ player_id := pid, tipo := typ, zona := zona,
                    half := gs.snap.half, sofrido := true,
                    t := truncInt gs.snap.elapsed } : GoalE)]).filter
                (fun x : GoalE => decide (x.half = 2 ∧ x.sofrido = true))).length
            rw [goalCount_append_miss gs.snap _ 2 true
              (by
              rintro ⟨h2, _⟩
              have h22 : gs.snap.half = 2 := h2
              rw [hh1] at h22
              exact absurd h22 (by decide)),
              hscore.2.2.2]
      · have hh2 : gs.snap.half = 2 := hhalf.resolve_left hh1
        cases sofrido with
        | false =>
          rw [if_neg (by decide), if_neg hh1]
          refine ⟨⟨hcaps, hhalf, hgh _ rfl, ⟨?_, ?_, ?_, ?_⟩, hcoup, hfield,
            hkeys⟩, hslotN⟩
          · show gs.snap.score_for1 =
              ((gs.snap.goals ++
                [({ player_id := pid, tipo := typ, zona := zona,
                    half := gs.snap.half, sofrido := false,
                    t := truncInt gs.snap.elapsed } : GoalE)]).filter
                (fun x : GoalE => decide (x.half = 1 ∧ x.sofrido = false))).length
            rw [goalCount_append_miss gs.snap _ 1 false
              (by
              rintro ⟨h2, _⟩
              have h22 : gs.snap.half = 1 := h2
              rw [hh2] at h22
              exact absurd h22 (by decide)),
              hscore.1]
          · show gs.snap.score_for2 + 1 =
              ((gs.snap.goals ++
                [({ player_id := pid, tipo := typ, zona := zona,
                    half := gs.snap.half, sofrido := false,
                    t := truncInt gs.snap.elapsed } : GoalE)]).filter
                (fun x : GoalE => decide (x.half = 2 ∧ x.sofrido = false))).length
            rw [goalCount_append_match gs.snap _ 2 false ⟨hh2, rfl⟩,
              hscore.2.1]
          · show gs.snap.score_against1 =
              ((gs.snap.goals ++
                [({ player_id := pid, tipo := typ, zona := zona,
                    half := gs.snap.half, sofrido := false,
                    t := truncInt gs.snap.elapsed } : GoalE)]).filter
                (fun x : GoalE => decide (x.half = 1 ∧ x.sofrido = true))).length
            rw [goalCount_append_miss gs.snap _ 1 true
              (by
              rintro ⟨_, hsf⟩
              have hsf2 : (false : Bool) = true := hsf
              exact absurd hsf2 (by decide)),
              hscore.2.2.1]
          · show gs.snap.score_against2 =
              ((gs.snap.goals ++
                [({ player_id := pid, tipo := typ, zona := zona,
                    half := gs.snap.half, sofrido := false,
                    t := truncInt gs.snap.elapsed } : GoalE)]).filter
                (fun x : GoalE => decide (x.half = 2 ∧ x.sofrido = true))).length
            rw [goalCount_append_miss gs.snap _ 2 true
              (by
              rintro ⟨_, hsf⟩
              have hsf2 : (false : Bool) = true := hsf
              exact absurd hsf2 (by decide)),
              hscore.2.2.2]
        | true =>
          rw [if_pos rfl, if_neg hh1]
          refine ⟨⟨hcaps, hhalf, hgh _ rfl, ⟨?_, ?_, ?_, ?_⟩, hcoup, hfield,
            hkeys⟩, hslotN⟩
          · show gs.snap.score_for1 =
              ((gs.snap.goals ++
                [({ player_id := pid, tipo := typ, zona := zona,
                    half := gs.snap.half, sofrido := true,
                    t := truncInt gs.snap.elapsed } : GoalE)]).filter
                (fun x : GoalE => decide (x.half = 1 ∧ x.sofrido = false))).length
            rw [goalCount_append_miss gs.snap _ 1 false
              (by
              rintro ⟨_, hsf⟩
              have hsf2 : (true : Bool) = false := hsf
              exact absurd hsf2 (by decide)),
              hscore.1]
          · show gs.snap.score_for2 =
              ((gs.snap.goals ++
                [({ player_id := pid, tipo := typ, zona := zona,
                    half := gs.snap.half, sofrido := true,
                    t := truncInt gs.snap.elapsed } : GoalE)]).filter
                (fun x : GoalE => decide (x.half = 2 ∧ x.sofrido = false))).length
            rw [goalCount_append_miss gs.snap _ 2 false
              (by
              rintro ⟨_, hsf⟩
              have hsf2 : (true : Bool) = false := hsf
              exact absurd hsf2 (by decide)),
              hscore.2.1]
          · show gs.snap.score_against1 =
              ((gs.snap.goals ++
                [({ player_id := pid, tipo := typ, zona := zona,
                    half := gs.snap.half, sofrido := true,
                    t := truncInt gs.snap.elapsed } : GoalE)]).filter
                (fun x : GoalE => decide (x.half = 1 ∧ x.sofrido = true))).length
            rw [goalCount_append_miss gs.snap _ 1 true
              (by
              rintro ⟨h2, _⟩
              have h22 : gs.snap.half = 1 := h2
              rw [hh2] at h22
              exact absurd h22 (by decide)),
              hscore.2.2.1]
          · show gs.snap.score_against2 + 1 =
              ((gs.snap.goals ++
                [({ player_id := pid, tipo := typ, zona := zona,
                    half := gs.snap.half, sofrido := true,
                    t := truncInt gs.snap.elapsed } : GoalE)]).filter
                (fun x : GoalE => decide (x.half = 2 ∧ x.sofrido = true))).length
            rw [goalCount_append_match gs.snap _ 2 true ⟨hh2, rfl⟩,
              hscore.2.2.2]

theorem inv_register_shot (pid outcome typ : String) (zona : Option ℕ)
    (sofrido : Bool) (gs : GameState) (h : Inv gs) :
    Inv (register_shot pid outcome typ zona sofrido gs).1 := by
  unfold register_shot
  cases hp : alookup gs.snap.players pid with
  | none => exact h
  | some p =>
    dsimp only
    by_cases hd : p.disq = true
    · rw [if_pos hd]
      exact h
    · rw [if_neg hd]
      exact inv_push ("Remate " ++ outcome ++ " " ++ p.nome ++ " (" ++ typ ++ ")")
        gs h

theorem inv_add_conquista (pid label : String) (gs : GameState) (h : Inv gs) :
    Inv (add_conquista pid label gs) := by
  unfold add_conquista
  cases hp : alookup gs.snap.players pid with
  | none => exact h
  | some p =>
    obtain ⟨⟨hcaps, hhalf, hghalf, hscore, hcoup, hfield, hkeys⟩, hslot⟩ := h
    refine ⟨⟨hcaps, hhalf, hghalf, hscore, ?_, ?_, ?_⟩, hslot⟩
    · exact couplingOK_update _ _ _ (fun q => rfl) hcoup
    · exact fieldOK_update_preserve _ _ _ (fun q => ⟨rfl, rfl, rfl⟩) hfield
    · show ((aupdate _ pid _).map Prod.fst).Nodup
      rw [keys_aupdate]
      exact hkeys

theorem inv_tech_fault (pid : String) (gs : GameState) (h : Inv gs) :
    Inv (tech_fault pid gs) := by
  unfold tech_fault
  cases hp : alookup gs.snap.players pid with
  | none => exact h
  | some p =>
    dsimp only
    by_cases ho : p.is_official = true
    · rw [if_pos ho]
      exact h
    · rw [if_neg ho]
      obtain ⟨⟨hcaps, hhalf, hghalf, hscore, hcoup, hfield, hkeys⟩, hslot⟩ :=
        inv_push ("Falha Técnica " ++ p.nome) gs h
      refine ⟨⟨hcaps, hhalf, hghalf, hscore, ?_, ?_, ?_⟩, hslot⟩
      · exact couplingOK_update _ _ _ (fun q => rfl) hcoup
      · exact fieldOK_update_preserve _ _ _ (fun q => ⟨rfl, rfl, rfl⟩) hfield
      · show ((aupdate _ pid _).map Prod.fst).Nodup
        rw [keys_aupdate]
        exact hkeys



theorem bool_eq_false_of_ne_true {b : Bool} (h : ¬ b = true) : b = false := by
  cases b
  · rfl
  · exact absurd rfl h

theorem alookup_aset_ne {α : Type} (k k' : String) (v : α)
    (l : List (String × α)) (h : k ≠ k') :
    alookup (aset k v l) k' = alookup l k' := by
  induction l with
  | nil => simp [aset, alookup, h]
  | cons pp rest ih =>
    have h2 : k' ≠ k := Ne.symm h
    by_cases hk : pp.1 = k
    · simp [aset, alookup, hk, h, ih]
    · by_cases hk' : pp.1 = k' <;> simp [aset, alookup, hk, hk', h2, ih]

theorem alookup_flush_players (onF : List String) (d : ℚ)
    (l : List (String × Entity)) (k : String) :
    alookup (l.map (flushEntity onF d)) k =
      (alookup l k).map (fun v => (flushEntity onF d (k, v)).2) := by
  induction l with
  | nil => rfl
  | cons pp rest ih =>
    rw [List.map_cons]
    by_cases h : pp.1 = k
    · subst h
      rw [alookup, alookup, if_pos (flushEntity_fields _ _ pp).1, if_pos rfl]
      rfl
    · rw [alookup, alookup,
        if_neg (by rw [(flushEntity_fields _ _ pp).1]; exact h), if_neg h]
      exact ih

theorem flush_lookup_fields (now : ℚ) (gs : GameState) (pid : String)
    (p : Entity) (hp : alookup gs.snap.players pid = some p) :
    ∃ p1, alookup (flush_time now gs).snap.players pid = some p1 ∧
      p1.in_field = p.in_field ∧ p1.disq = p.disq ∧
      (¬ 0 < p.two_active → p1.two_active = p.two_active) := by
  by_cases hr : gs.snap.running = false
  · rw [flush_time_not_running now gs hr]
    exact ⟨p, hp, rfl, rfl, fun _ => rfl⟩
  · have hr' := running_eq_true_of_ne hr
    cases hs : gs.snap.start_time with
    | none =>
      rw [flush_time_no_start now gs hr' hs]
      exact ⟨p, hp, rfl, rfl, fun _ => rfl⟩
    | some t0 =>
      by_cases hd : max 0 (now - t0) = 0
      · rw [flush_time_zero_delta now gs t0 hr' hs hd]
        exact ⟨p, hp, rfl, rfl, fun _ => rfl⟩
      · have key : alookup (gs.snap.players.map
            (flushEntity gs.snap.on_field_set (max 0 (now - t0)))) pid =
            some (flushEntity gs.snap.on_field_set (max 0 (now - t0)) (pid, p)).2 := by
          rw [alookup_flush_players, hp]
          rfl
        have hf := flushEntity_fields gs.snap.on_field_set (max 0 (now - t0)) (pid, p)
        by_cases hge : gs.half_len ≤ gs.snap.elapsed + max 0 (now - t0)
        · by_cases hh : gs.snap.half = 1
          · rw [flush_time_end_half1 now gs t0 hr' hs hd hge hh]
            exact ⟨_, key, hf.2.1, hf.2.2.1, hf.2.2.2⟩
          · rw [flush_time_end_half2 now gs t0 hr' hs hd hge hh]
            exact ⟨_, key, hf.2.1, hf.2.2.1, hf.2.2.2⟩
        · rw [flush_time_advance now gs t0 hr' hs hd (not_le.mp hge)]
          exact ⟨_, key, hf.2.1, hf.2.2.1, hf.2.2.2⟩

theorem inv_toggle_field (now : ℚ) (pid : String) (gs : GameState)
    (h : Inv gs) : Inv (toggle_field now pid gs).1 := by
  unfold toggle_field
  cases hp : alookup gs.snap.players pid with
  | none => exact h
  | some p =>
    dsimp only
    by_cases hg : p.is_official = true ∨ p.disq = true ∨ 0 < p.two_active ∨
        0 < bench_of gs.snap pid
    · rw [if_pos hg]
      exact h
    · rw [if_neg hg]
      have hdq : ¬ p.disq = true := fun hx => hg (Or.inr (Or.inl hx))
      have htw : ¬ 0 < p.two_active := fun hx => hg (Or.inr (Or.inr (Or.inl hx)))
      have hG1 : Inv (flush_time now gs) := inv_flush now gs h
      by_cases hb1 : 0 < bench_of (flush_time now gs).snap pid
      · rw [if_pos hb1]
        exact hG1
      · rw [if_neg hb1]
        cases hq1 : alookup (flush_time now gs).snap.players pid with
        | none => exact hG1
        | some p1 =>
          dsimp only
          by_cases hif : p1.in_field = true
          · rw [if_pos hif]
            exact ⟨snapInv_remove pid (flush_time now gs) hG1.1, hG1.2⟩
          · rw [if_neg hif]
            by_cases hcap : current_allowed_on_field (flush_time now gs) ≤
                ((flush_time now gs).snap.on_field_set.length : ℤ)
            · rw [if_pos hcap]
              exact hG1
            · rw [if_neg hcap]
              obtain ⟨hcaps1, hhalf1, hghalf1, hscore1, hcoup1, hfield1, hkeys1⟩ :=
                hG1.1
              obtain ⟨pf, hpf, hpf_in, hpf_disq, hpf_two⟩ :=
                flush_lookup_fields now gs pid p hp
              rw [hq1] at hpf
              cases Option.some.inj hpf
              refine ⟨⟨hcaps1, hhalf1, hghalf1, hscore1, ?_, ?_, ?_⟩, hG1.2⟩
              · intro pp hm
                rcases mem_aupdate hm with ⟨qq, hq, hk1, hcase⟩
                rcases hcase with ⟨hne, heq⟩ | ⟨hkk, heq⟩
                · rw [heq, hk1]
                  constructor
                  · intro hif2
                    exact mem_setAdd.mpr (Or.inl ((hcoup1 qq hq).mp hif2))
                  · intro hmem
                    rcases mem_setAdd.mp hmem with hmem | hmem
                    · exact (hcoup1 qq hq).mpr hmem
                    · exact absurd hmem hne
                · rw [heq]
                  refine ⟨fun _ => ?_, fun _ => rfl⟩
                  rw [hk1, hkk]
                  exact mem_setAdd.mpr (Or.inr rfl)
              · intro pp hm hif2
                rcases mem_aupdate hm with ⟨qq, hq, hk1, hcase⟩
                rcases hcase with ⟨hne, heq⟩ | ⟨hkk, heq⟩
                · rw [hk1]
                  rw [heq] at hif2 ⊢
                  exact hfield1 qq hq hif2
                · have hqq : qq.2 = p1 := by
                    have hqeta : qq = (pid, qq.2) := by
                      rcases qq with ⟨a, b⟩
                      simp only at hkk ⊢
                      rw [hkk]
                    have hmem2 : (pid, qq.2) ∈ (flush_time now gs).snap.players := by
                      rw [← hqeta]
                      exact hq
                    have hlk := alookup_of_mem_nodup hkeys1 hmem2
                    rw [hq1] at hlk
                    exact (Option.some.inj hlk).symm
                  rw [heq, hqq]
                  refine ⟨?_, ?_, ?_⟩
                  · show p1.disq = false
                    rw [hpf_disq]
                    exact bool_eq_false_of_ne_true hdq
                  · show ¬ 0 < p1.two_active
                    rw [hpf_two htw]
                    exact htw
                  · show ¬ 0 < bench_of (flush_time now gs).snap pp.1
                    rw [hk1, hkk]
                    exact hb1
              · show ((aupdate _ pid _).map Prod.fst).Nodup
                rw [keys_aupdate]
                exact hkeys1

theorem inv_force_out_choice (now : ℚ) (pid : String) (duration : ℚ)
    (reason : String) (gs : GameState) (h : Inv gs) :
    Inv (force_out_choice now pid duration reason gs) := by
  unfold force_out_choice
  cases hp : alookup gs.snap.players pid with
  | none => exact h
  | some p =>
    dsimp only
    by_cases hc : pid ∈ gs.snap.on_field_set ∧ p.is_official = false
    · rw [if_pos hc]
      set G2 : GameState := flush_time now
        (push_snapshot ("Retirar " ++ p.nome ++ " (" ++ reason ++ ")") gs)
        with hG2def
      have hG2 : Inv G2 := by
        rw [hG2def]
        exact inv_flush now _ (inv_push _ gs h)
      obtain ⟨⟨hcaps2, hhalf2, hghalf2, hscore2, hcoup2, hfield2, hkeys2⟩,
        hslot2⟩ := hG2
      refine ⟨⟨hcaps2, hhalf2, hghalf2, hscore2, ?_, ?_, ?_⟩, hslot2⟩
      · intro pp hm
        rcases mem_aupdate hm with ⟨qq, hq, hk1, hcase⟩
        rw [hk1]
        rcases hcase with ⟨hne, heq⟩ | ⟨hkk, heq⟩
        · rw [heq]
          constructor
          · intro hif
            exact mem_setDiscard.mpr ⟨(hcoup2 qq hq).mp hif, hne⟩
          · intro hmem
            exact (hcoup2 qq hq).mpr (mem_setDiscard.mp hmem).1
        · rw [heq]
          simp [mem_setDiscard, hkk]
      · intro pp hm hif
        rcases mem_aupdate hm with ⟨qq, hq, hk1, hcase⟩
        rcases hcase with ⟨hne, heq⟩ | ⟨hkk, heq⟩
        · rw [heq] at hif
          have hold := hfield2 qq hq hif
          have hne2 : pid ≠ qq.1 := fun he => hne he.symm
          refine ⟨by rw [heq]; exact hold.1, by rw [heq]; exact hold.2.1, ?_⟩
          show ¬ 0 < (alookup (aset pid (bench_of G2.snap pid + duration)
            G2.snap.forced_bench_s) pp.1).getD 0
          rw [hk1, alookup_aset_ne pid qq.1 _ _ hne2]
          exact hold.2.2
        · rw [heq] at hif
          exact absurd hif (by simp)
      · show ((aupdate _ pid _).map Prod.fst).Nodup
        rw [keys_aupdate]
        exact hkeys2
    · rw [if_neg hc]
      exact h


theorem flush_time_officials_two (now : ℚ) (gs : GameState) :
    (flush_time now gs).snap.officials_two_total =
      gs.snap.officials_two_total := by
  unfold flush_time
  split
  · rfl
  · split
    · rfl
    · dsimp only
      repeat' split
      all_goals rfl

theorem inv_apply (a : Action) (gs : GameState) (h : Inv gs) :
    Inv (applyAction a gs) := by
  cases a with
  | flush now => exact inv_flush now gs h
  | start now => exact inv_start_play now gs h
  | pause now => exact inv_pause_play now gs h
  | yellow pid => exact inv_give_yellow pid gs h
  | twoMin now pid => exact inv_give_two_minutes now pid gs h
  | redCard now pid => exact inv_give_red now pid gs h
  | goal pid typ zona sofrido => exact inv_register_goal pid typ zona sofrido gs h
  | shot pid outcome typ zona sofrido =>
    exact inv_register_shot pid outcome typ zona sofrido gs h
  | conquista pid label => exact inv_add_conquista pid label gs h
  | tech pid => exact inv_tech_fault pid gs h
  | toggle now pid => exact inv_toggle_field now pid gs h
  | forceOut now pid duration reason =>
    exact inv_force_out_choice now pid duration reason gs h
  | undo => exact inv_undo gs h

theorem inv_init (athletes : List (String × String × String × String))
    (officials : List (String × String × String))
    (hnodup : ((athletes.map (fun a => a.1)) ++
      (officials.map (fun o => o.1))).Nodup) :
    Inv (init_state athletes officials) := by
  refine ⟨⟨⟨Nat.zero_le 3, Nat.zero_le 1, Nat.zero_le 1⟩, Or.inl rfl,
    ?_, ⟨rfl, rfl, rfl, rfl⟩, ?_, ?_, ?_⟩, ?_⟩
  · intro e he
    exact absurd he (List.not_mem_nil e)
  · intro pp hm
    constructor
    · intro hif
      exfalso
      rcases List.mem_append.mp hm with hm | hm
      · rcases List.mem_map.mp hm with ⟨a, _, rfl⟩
        exact Bool.false_ne_true hif
      · rcases List.mem_map.mp hm with ⟨o, _, rfl⟩
        exact Bool.false_ne_true hif
    · intro hmem
      exact absurd hmem (List.not_mem_nil _)
  · intro pp hm hif
    exfalso
    rcases List.mem_append.mp hm with hm | hm
    · rcases List.mem_map.mp hm with ⟨a, _, rfl⟩
      exact Bool.false_ne_true hif
    · rcases List.mem_map.mp hm with ⟨o, _, rfl⟩
      exact Bool.false_ne_true hif
  · show ((athletes.map _ ++ officials.map _).map Prod.fst).Nodup
    rw [List.map_append, List.map_map, List.map_map]
    exact hnodup
  · intro sl hsl
    exact absurd hsl (by simp [init_state])

theorem inv_reachable (acts : List Action)
    (athletes : List (String × String × String × String))
    (officials : List (String × String × String))
    (hnodup : ((athletes.map (fun a => a.1)) ++
      (officials.map (fun o => o.1))).Nodup) :
    Inv (applyActions acts (init_state athletes officials)) := by
  have hgen : ∀ (l : List Action) (g : GameState), Inv g → Inv (applyActions l g) := by
    intro l
    induction l with
    | nil => exact fun g hg => hg
    | cons a rest ih => exact fun g hg => ih _ (inv_apply a g hg)
  exact hgen acts _ (inv_init athletes officials hnodup)

theorem give_yellow_team_total_at_cap (pid : String) (gs : GameState)
    (hcap : 3 ≤ gs.snap.team_yellow_total) :
    (give_yellow pid gs).1.snap.team_yellow_total =
      gs.snap.team_yellow_total := by
  unfold give_yellow
  cases hp : alookup gs.snap.players pid with
  | none => rfl
  | some p =>
    dsimp only
    by_cases hd : p.disq = true
    · rw [if_pos hd]
    · rw [if_neg hd]
      by_cases ho : p.is_official = true
      · rw [if_pos ho]
        by_cases h1 : 1 ≤ gs.snap.officials_yellow_total
        · rw [if_pos h1]
        · rw [if_neg h1]
          by_cases h2 : 1 ≤ p.yellow
          · rw [if_pos h2]
          · rw [if_neg h2]
            rfl
      · rw [if_neg ho, if_pos hcap]

theorem give_yellow_officials_total_at_cap (pid : String) (gs : GameState)
    (hcap : 1 ≤ gs.snap.officials_yellow_total) :
    (give_yellow pid gs).1.snap.officials_yellow_total =
      gs.snap.officials_yellow_total := by
  unfold give_yellow
  cases hp : alookup gs.snap.players pid with
  | none => rfl
  | some p =>
    dsimp only
    by_cases hd : p.disq = true
    · rw [if_pos hd]
    · rw [if_neg hd]
      by_cases ho : p.is_official = true
      · rw [if_pos ho, if_pos hcap]
      · rw [if_neg ho]
        by_cases h1 : 3 ≤ gs.snap.team_yellow_total
        · rw [if_pos h1]
        · rw [if_neg h1]
          by_cases h2 : 1 ≤ p.yellow
          · rw [if_pos h2]
          · rw [if_neg h2]
            rfl

theorem give_two_minutes_officials_two_at_cap (now : ℚ) (pid : String)
    (gs : GameState) (hcap : 1 ≤ gs.snap.officials_two_total) :
    (give_two_minutes now pid gs).1.snap.officials_two_total =
      gs.snap.officials_two_total := by
  unfold give_two_minutes
  cases hp : alookup gs.snap.players pid with
  | none => rfl
  | some p0 =>
    dsimp only
    by_cases hd : p0.disq = true
    · rw [if_pos hd]
    · rw [if_neg hd]
      set G : GameState :=
        (if pid ∈ (push_snapshot ("2\x27 " ++ p0.nome) gs).snap.on_field_set
         then removeFromField pid
           (flush_time now (push_snapshot ("2\x27 " ++ p0.nome) gs))
         else push_snapshot ("2\x27 " ++ p0.nome) gs) with hGdef
      have hGot : G.snap.officials_two_total = gs.snap.officials_two_total := by
        rw [hGdef]
        split
        · exact flush_time_officials_two now (push_snapshot ("2\x27 " ++ p0.nome) gs)
        · rfl
      cases hq : alookup G.snap.players pid with
      | none => exact hGot
      | some p =>
        dsimp only
        by_cases ho : p.is_official = true
        · rw [if_pos ho]
          by_cases hc2 : 1 ≤ G.snap.officials_two_total
          · rw [if_pos hc2]
            exact hGot
          · exact absurd (by rw [hGot]; exact hcap) hc2
        · rw [if_neg ho]
          by_cases h3 : 3 ≤ p.two_total + 1
          · rw [if_pos h3]
            exact hGot
          · rw [if_neg h3]
            exact hGot


/-- C6: over every reachable state (any action sequence from a
duplicate-free roster) the collective counters respect their caps, and
the yellow/two-minute handlers refuse to increment a counter that is
already at its cap. -/
theorem C6_collective_caps (acts : List Action)
    (athletes : List (String × String × String × String))
    (officials : List (String × String × String))
    (hnodup : ((athletes.map (fun a => a.1)) ++
      (officials.map (fun o => o.1))).Nodup) :
    ((applyActions acts (init_state athletes officials)).snap.team_yellow_total ≤ 3 ∧
     (applyActions acts
       (init_state athletes officials)).snap.officials_yellow_total ≤ 1 ∧
     (applyActions acts
       (init_state athletes officials)).snap.officials_two_total ≤ 1) ∧
    (∀ (gs : GameState) (pid : String),
      (3 ≤ gs.snap.team_yellow_total →
        (give_yellow pid gs).1.snap.team_yellow_total =
          gs.snap.team_yellow_total) ∧
      (1 ≤ gs.snap.officials_yellow_total →
        (give_yellow pid gs).1.snap.officials_yellow_total =
          gs.snap.officials_yellow_total) ∧
      (∀ now : ℚ, 1 ≤ gs.snap.officials_two_total →
        (give_two_minutes now pid gs).1.snap.officials_two_total =
          gs.snap.officials_two_total)) := by
  constructor
  · exact (inv_reachable acts athletes officials hnodup).1.1
  · intro gs pid
    exact ⟨give_yellow_team_total_at_cap pid gs,
      give_yellow_officials_total_at_cap pid gs,
      fun now => give_two_minutes_officials_two_at_cap now pid gs⟩

/-- Witness for C6: in `exC6` every collective counter sits at its cap
and the three refusals leave the counters unchanged; the cap bound holds
at a concrete reachable state. -/
theorem C6_witness :
    (applyActions [Action.yellow "a"]
      (init_state [("a", "7", "Ana", "PE"), ("b", "9", "Bia", "GR")]
        [("o", "Olga", "A")])).snap.team_yellow_total ≤ 3 ∧
    exC6.snap.team_yellow_total = 3 ∧
    (give_yellow "a" exC6).1.snap.team_yellow_total = 3 ∧
    (give_yellow "o" exC6).1.snap.officials_yellow_total = 1 ∧
    (give_two_minutes 0 "o" exC6).1.snap.officials_two_total = 1 := by
  have hcaps := (C6_collective_caps [Action.yellow "a"]
    [("a", "7", "Ana", "PE"), ("b", "9", "Bia", "GR")] [("o", "Olga", "A")]
    (by with_unfolding_all decide)).1
  have href := (C6_collective_caps [] [] [] List.nodup_nil).2
  have h1 := (href exC6 "a").1 (by with_unfolding_all decide)
  have h2 := (href exC6 "o").2.1 (by with_unfolding_all decide)
  have h3 := (href exC6 "o").2.2 0 (by with_unfolding_all decide)
  refine ⟨hcaps.1, by with_unfolding_all decide, ?_, ?_, ?_⟩
  · rw [h1]
    with_unfolding_all decide
  · rw [h2]
    with_unfolding_all decide
  · rw [h3]
    with_unfolding_all decide

/-- C7: in every reachable state, an entity recorded as on the field is
not disqualified, has no active two-minute countdown and no positive
forced-bench block. -/
theorem C7_field_eligibility (acts : List Action)
    (athletes : List (String × String × String × String))
    (officials : List (String × String × String))
    (hnodup : ((athletes.map (fun a => a.1)) ++
      (officials.map (fun o => o.1))).Nodup)
    (pid : String) (p : Entity)
    (hp : alookup (applyActions acts
      (init_state athletes officials)).snap.players pid = some p)
    (hif : p.in_field = true) :
    p.disq = false ∧ ¬ 0 < p.two_active ∧
    ¬ 0 < bench_of (applyActions acts
      (init_state athletes officials)).snap pid := by
  have hinv := inv_reachable acts athletes officials hnodup
  have hfield := hinv.1.2.2.2.2.2.1
  exact hfield (pid, p) (alookup_mem hp) hif

/-- Witness for C7: after athlete `a` enters the field from the fresh
roster, the invariant instantiates at that on-field athlete. -/
theorem C7_witness :
    ({ initAthlete "7" "Ana" "PE" with in_field := true } : Entity).disq = false ∧
    ¬ (0 : ℚ) < ({ initAthlete "7" "Ana" "PE" with
      in_field := true } : Entity).two_active ∧
    ¬ (0 : ℚ) < bench_of (applyActions [Action.toggle 0 "a"]
      (init_state [("a", "7", "Ana", "PE"), ("b", "9", "Bia", "GR")]
        [("o", "Olga", "A")])).snap "a" := by
  have h := C7_field_eligibility [Action.toggle 0 "a"]
    [("a", "7", "Ana", "PE"), ("b", "9", "Bia", "GR")] [("o", "Olga", "A")]
    (by with_unfolding_all decide) "a"
    { initAthlete "7" "Ana" "PE" with in_field := true }
    (by with_unfolding_all decide) rfl
  exact ⟨h.1, h.2.1, h.2.2⟩

/-- C10: in every reachable state the stored per-half scores equal the
number of goal-ledger entries of that half with the matching conceded
flag. -/
theorem C10_score_ledger_coherence (acts : List Action)
    (athletes : List (String × String × String × String))
    (officials : List (String × String × String))
    (hnodup : ((athletes.map (fun a => a.1)) ++
      (officials.map (fun o => o.1))).Nodup) :
    (applyActions acts (init_state athletes officials)).snap.score_for1 =
      goalCount (applyActions acts (init_state athletes officials)).snap 1 false ∧
    (applyActions acts (init_state athletes officials)).snap.score_for2 =
      goalCount (applyActions acts (init_state athletes officials)).snap 2 false ∧
    (applyActions acts (init_state athletes officials)).snap.score_against1 =
      goalCount (applyActions acts (init_state athletes officials)).snap 1 true ∧
    (applyActions acts (init_state athletes officials)).snap.score_against2 =
      goalCount (applyActions acts (init_state athletes officials)).snap 2 true := by
  exact (inv_reachable acts athletes officials hnodup).1.2.2.2.1

/-- Witness for C10: after one registered goal and one conceded goal the
stored scores match the ledger counts (and are in fact 1 and 1). -/
theorem C10_witness :
    (applyActions [Action.goal "a" "9m" (some 7) false,
        Action.goal "b" "7m" none true]
      (init_state [("a", "7", "Ana", "PE"), ("b", "9", "Bia", "GR")]
        [("o", "Olga", "A")])).snap.score_for1 =
      goalCount (applyActions [Action.goal "a" "9m" (some 7) false,
        Action.goal "b" "7m" none true]
      (init_state [("a", "7", "Ana", "PE"), ("b", "9", "Bia", "GR")]
        [("o", "Olga", "A")])).snap 1 false ∧
    (applyActions [Action.goal "a" "9m" (some 7) false,
        Action.goal "b" "7m" none true]
      (init_state [("a", "7", "Ana", "PE"), ("b", "9", "Bia", "GR")]
        [("o", "Olga", "A")])).snap.score_for1 = 1 ∧
    (applyActions [Action.goal "a" "9m" (some 7) false,
        Action.goal "b" "7m" none true]
      (init_state [("a", "7", "Ana", "PE"), ("b", "9", "Bia", "GR")]
        [("o", "Olga", "A")])).snap.score_against1 = 1 := by
  have h := C10_score_ledger_coherence
    [Action.goal "a" "9m" (some 7) false, Action.goal "b" "7m" none true]
    [("a", "7", "Ana", "PE"), ("b", "9", "Bia", "GR")] [("o", "Olga", "A")]
    (by with_unfolding_all decide)
  exact ⟨h.1, by with_unfolding_all decide, by with_unfolding_all decide⟩

end Andebol
